import Mathlib

/-!
Image acquisition script: embedding of `src/main.cpp`.

The program is a single `main` that drives three libraries (camera SDK, image
library, spreadsheet writer) and the filesystem, plus the helper
`create_folders`.  The embedding makes every library call an `Event` appended to
a chronological trace, keeps the filesystem as explicit state, and takes all
answers of the outside world (SDK return codes, captured frames, key presses,
the contents of uninitialised locals) from an environment record.

Conventions:
* an SDK call returns `Except VmbError α`: `.ok v` is `VmbErrorSuccess` with the
  out-parameter set to `v`; `.error e` is any other code, the out-parameter being
  left as it was;
* `int` is 32 bits wide and `lxw_row_t` is `uint32_t` (`toUInt32`); overflow of
  the `int` frame counter is undefined behaviour, for which no outcome is fixed:
  what an overflowing computation leaves is taken from the environment
  (`Overflow`) and the run is marked, its status being `undefined`;
* `double` values are exact rationals; the 64-bit timestamp handed to the
  spreadsheet is converted to `double` (`u64ToDouble`);
* `std::filesystem::create_directories` is taken from the environment
  (`FsLibrary`) with its postcondition only;
* the `while (true)` loop is run with a bound on the number of iterations; a run
  that has not left the loop within the bound has status `running`.
-/

namespace ImageAcquisition

/-! ## Machine integers and numeric conversions -/

/-- Conversion of an unsigned 32-bit value to `int`, as for the dimensions
handed to `cv::Mat`: modular. -/
def toInt32 (x : Int) : Int := (x + 2147483648) % 4294967296 - 2147483648

/-- Smallest value of `int`. -/
def INT_MIN : Int := -2147483648

/-- Largest value of `int`. -/
def INT_MAX : Int := 2147483647

/-- Whether a mathematical integer is a value of `int`. -/
def inIntRange (x : Int) : Bool := decide (INT_MIN ≤ x ∧ x ≤ INT_MAX)

/-- What an overflowing computation on the `int` frame counter leaves behind,
as a function of the mathematical result: the row number that reaches the
spreadsheet for `frame_count + 1`, and the content of `frame_count` after
`frame_count++`.  Signed overflow is undefined behaviour; these are whatever the
build at hand produces. -/
structure Overflow where
  row : Int → Nat
  counter : Int → Int

/-- Number of binary digits of `n`, searched with the given fuel. -/
def bitLength : Nat → Nat → Nat
  | 0, _ => 0
  | fuel + 1, n => if n = 0 then 0 else bitLength fuel (n / 2) + 1

/-- Conversion of a `VmbUint64_t` to `double`, by the value of the result:
values up to `2^53` are exact, larger ones are rounded to 53 significant bits,
to nearest with ties to even. -/
def u64ToDouble (t : Nat) : Nat :=
  if t ≤ 9007199254740992 then t
  else
    let unit := 2 ^ (bitLength t t - 53)
    let q := t / unit
    let r := t % unit
    if 2 * r < unit then q * unit
    else if unit < 2 * r then (q + 1) * unit
    else if q % 2 = 0 then q * unit else (q + 1) * unit

/-- Conversion of an `int` to `uint32_t` (`lxw_row_t`). -/
def toUInt32 (x : Int) : Nat := (x % 4294967296).toNat

/-- The C++ conversion `int(x)` of a finite `double`: the fractional part is
discarded.  Defined in C++ when the truncated value is representable. -/
def cppInt (x : ℚ) : Int := Int.tdiv x.num x.den

/-- Key code of the carriage-return key, `ENTER_KEY_CODE` (main.cpp:33). -/
def ENTER_KEY_CODE : Int := 13

/-- Capture timeout in milliseconds, `t_out` (main.cpp:28). -/
def t_out : Nat := 50

/-- Process status `EXIT_SUCCESS`. -/
def EXIT_SUCCESS : Int := 0

/-- Process status `EXIT_FAILURE`. -/
def EXIT_FAILURE : Int := 1

/-! ## Filesystem -/

/-- Kind of a filesystem entry. -/
inductive FileType
  | regular
  | directory
  deriving DecidableEq

/-- Explicit filesystem state: for every path, whether it exists and as what,
as the filesystem resolves the path. -/
abbrev FileSystem := String → Option FileType

/-- Error of a `std::filesystem` call, thrown as `filesystem_error`, by its
`errno`. -/
structure FsError where
  errno : Nat
  deriving DecidableEq

/-- Model of `std::filesystem::exists`. -/
def fsExists (fs : FileSystem) (p : String) : Bool := (fs p).isSome

/-- The throwing overload of `std::filesystem::create_directories` as the environment
provides it: from a state and a path, either the state after a normal return,
or the exception together with the state it leaves behind.  Its postcondition is
all that is assumed: after a normal return the path exists. -/
structure FsLibrary where
  create_directories : FileSystem → String → Except (FsError × FileSystem) FileSystem
  exists_after : ∀ fs p fs1, create_directories fs p = .ok fs1 → fsExists fs1 p = true

/-! ## Library calls as events -/

/-- Content of a spreadsheet cell: a string, or a number.  The numbers this
program writes are conversions of unsigned integers to `double`, hence integers,
and are kept by their value. -/
inductive Cell
  | str (s : String)
  | num (n : Nat)
  deriving DecidableEq

/-- Header of `cv::Mat(rows, cols, CV_8UC1, data)`: the dimensions as `int` and
the borrowed buffer (`none` is `nullptr`). -/
structure Mat where
  rows : Int
  cols : Int
  data : Option Nat
  deriving DecidableEq

/-- Access modes of the SDK. -/
inductive VmbAccessModeType
  | VmbAccessModeNone
  | VmbAccessModeFull
  | VmbAccessModeRead
  deriving DecidableEq

/-- One call into a library or one line printed to the operator. -/
inductive Event
  | Startup
  | GetCameras
  | Shutdown
  | Open (mode : VmbAccessModeType)
  | GetStreams
  | Close
  | GetFeatureByName (name : String)
  | GetValue (name : String)
  | SetValue (name : String) (value : ℚ)
  | cout (text : String)
  | coutValue (label : String) (value : ℚ)
  | filesystem_exists (path : String)
  | create_directories (path : String)
  | workbook_new (path : String)
  | workbook_add_worksheet (name : String)
  | worksheet_write_string (row col : Nat) (s : String)
  | worksheet_write_number (row col : Nat) (n : Nat)
  | workbook_close
  | AcquireSingleImage (timeout : Nat)
  | imwrite (path : String) (mat : Mat)
  | imshow (title : String) (mat : Mat)
  | waitKey (delay : Int) (key : Int)
  | destroyAllWindows
  deriving DecidableEq

/-- Everything outside the process: the filesystem and the chronological record
of library calls and printed lines. -/
structure World where
  fs : FileSystem
  trace : List Event

/-- Append one event to the record. -/
def World.emit (w : World) (e : Event) : World := { w with trace := w.trace ++ [e] }

/-- Append several events to the record. -/
def World.emitAll (w : World) (es : List Event) : World := { w with trace := w.trace ++ es }

/-! ## Environment -/

/-- SDK error codes other than `VmbErrorSuccess`. -/
inductive VmbError
  | timeout
  | other (code : Int)
  deriving DecidableEq

/-- A captured frame: what each of its four getters answers. -/
structure Frame where
  GetHeight : Except VmbError Nat
  GetWidth : Except VmbError Nat
  GetImage : Except VmbError Nat
  GetTimestamp : Except VmbError Nat

/-- A camera: the answers to `Open`, `GetStreams`, to reading a named feature,
and to the k-th `AcquireSingleImage` call (k from 0). -/
structure Camera where
  Open : Except VmbError Unit
  GetStreams : Except VmbError Unit
  GetValue : String → Except VmbError ℚ
  AcquireSingleImage : Nat → Except VmbError Frame

/-- Indeterminate contents of the locals that `main` declares without an
initialiser (main.cpp:27-29, 69). -/
structure Uninitialised where
  frame_h : Nat
  frame_w : Nat
  time_stamp : Nat
  exposure_time : ℚ
  gain : ℚ
  black_lvl : ℚ
  current_fps : ℚ
  max_fps : ℚ

/-- The outside world as the program meets it. -/
structure Env where
  Startup : Except VmbError Unit
  GetCameras : Except VmbError (List Camera)
  uninit : Uninitialised
  waitKey : Nat → Int
  fs : FileSystem
  library : FsLibrary
  overflow : Overflow

/-! ## `create_folders` (main.cpp:209-225) -/

/-- An exception leaving `create_folders`: the error and the world at the
moment it was thrown. -/
structure Thrown where
  error : FsError
  world : World

/-- Embedding of `create_folders`: when the path does not exist, print the
"creating" banner and call `create_directories`, whose exception propagates;
otherwise print the "exists" banner. -/
def create_folders (lib : FsLibrary) (w : World) (path : String) : Except Thrown World :=
  let w0 := w.emit (.filesystem_exists path)
  if !fsExists w0.fs path then
    let w1 := (w0.emit (.cout ("/// Creating folder at        :       " ++ path))).emit
      (.create_directories path)
    match lib.create_directories w1.fs path with
    | .ok fs1 => .ok { w1 with fs := fs1 }
    | .error (e, fs1) => .error ⟨e, { w1 with fs := fs1 }⟩
  else
    .ok (w0.emit (.cout ("/// Folder exists at          :       " ++ path)))

/-! ## Output layout (main.cpp:125-131, 140) -/

/-- Image root, `root_folder`. -/
def root_folder : String := "../images"

/-- Directory segment carrying the two parameter values. -/
def param_folder_name (gain exposure_time : ℚ) : String :=
  "Gain_" ++ toString (cppInt gain) ++ "_ExposureTime_" ++ toString (cppInt exposure_time)

/-- Movement label. -/
def movement_folder_name : String := "X03_Y03_TopRight"

/-- Experiment label. -/
def experiment_folder_name : String := "LaserDia_9mm"

/-- Image directory. -/
def testing_folder (gain exposure_time : ℚ) : String :=
  root_folder ++ "/" ++ param_folder_name gain exposure_time ++ "/" ++ movement_folder_name
    ++ "/" ++ experiment_folder_name

/-- Timestamp directory. -/
def timestamps_folder (gain exposure_time : ℚ) : String :=
  "../timestamps/" ++ param_folder_name gain exposure_time ++ "/" ++ movement_folder_name
    ++ "/" ++ experiment_folder_name

/-- Path of the ledger document. -/
def xlsx_path (gain exposure_time : ℚ) : String :=
  timestamps_folder gain exposure_time ++ "/" ++ "timestamps.xlsx"

/-! ## Camera parameters (main.cpp:68-123) -/

/-- Values of the parameter locals once the parameter block has run. -/
structure Params where
  exposure_time : ℚ
  gain : ℚ
  black_lvl : ℚ
  current_fps : ℚ
  max_fps : ℚ

/-- Reading a named feature into a local: the local takes the device value when
the read succeeds and keeps its content otherwise. -/
def readValue (cam : Camera) (name : String) (old : ℚ) : ℚ :=
  match cam.GetValue name with
  | .ok v => v
  | .error _ => old

/-- Embedding of the parameter block: each parameter is read and printed, the
writable ones are then assigned, handed to `SetValue` and printed again.  The
frame-rate `SetValue` receives `max_fps`, which is not yet assigned at that
point (main.cpp:110). -/
def configureParameters (cam : Camera) (u : Uninitialised) (w : World) : Params × World :=
  let w := w.emit (.cout "//// Printing general info ////")
  -- exposure time, main.cpp:75-84
  let exposure_time := readValue cam "ExposureTimeAbs" u.exposure_time
  let w := w.emitAll [.GetFeatureByName "ExposureTimeAbs", .GetValue "ExposureTimeAbs",
    .coutValue "Exposure Time (Before)" exposure_time]
  let exposure_time : ℚ := 150
  let w := w.emitAll [.GetFeatureByName "ExposureTimeAbs",
    .SetValue "ExposureTimeAbs" exposure_time,
    .coutValue "Exposure Time (After)" exposure_time]
  -- gain, main.cpp:86-95
  let gain := readValue cam "Gain" u.gain
  let w := w.emitAll [.GetFeatureByName "Gain", .GetValue "Gain",
    .coutValue "Gain (Before)" gain]
  let gain : ℚ := 0
  let w := w.emitAll [.GetFeatureByName "Gain", .SetValue "Gain" gain,
    .coutValue "Gain (After)" gain]
  -- black level, main.cpp:97-100
  let black_lvl := readValue cam "BlackLevel" u.black_lvl
  let w := w.emitAll [.GetFeatureByName "BlackLevel", .GetValue "BlackLevel",
    .coutValue "Black Level" black_lvl]
  -- frame rate, main.cpp:102-111
  let current_fps := readValue cam "AcquisitionFrameRateAbs" u.current_fps
  let w := w.emitAll [.GetFeatureByName "AcquisitionFrameRateAbs",
    .GetValue "AcquisitionFrameRateAbs", .coutValue "Frame Rate (Before)" current_fps]
  let current_fps : ℚ := 200
  let max_fps := u.max_fps
  let w := w.emitAll [.GetFeatureByName "AcquisitionFrameRateAbs",
    .SetValue "AcquisitionFrameRateAbs" max_fps,
    .coutValue "Frame Rate (After)" current_fps]
  -- frame-rate limit, main.cpp:113-116
  let max_fps := readValue cam "AcquisitionFrameRateLimit" max_fps
  let w := w.emitAll [.GetFeatureByName "AcquisitionFrameRateLimit",
    .GetValue "AcquisitionFrameRateLimit", .coutValue "Max. Possible Frame Rate" max_fps]
  let w := w.emit (.cout "///////////// Done ////////////")
  (⟨exposure_time, gain, black_lvl, current_fps, max_fps⟩, w)

/-! ## Acquisition loop (main.cpp:145-200) -/

/-- Locals of `main` that live across loop iterations, the number of capture
calls and key polls made so far, whether the frame counter has overflowed, and
the world. -/
structure LoopState where
  frame_h : Nat
  frame_w : Nat
  pImage : Option Nat
  time_stamp : Nat
  frame_count : Int
  captures : Nat
  polls : Nat
  overflowed : Bool
  world : World

/-- A getter writing through its out-parameter: the new content of the local. -/
def stored {α : Type} (r : Except VmbError α) (old : α) : α :=
  match r with
  | .ok v => v
  | .error _ => old

/-- The message printed when a getter fails, and nothing when it succeeds. -/
def logFailure {α : Type} (r : Except VmbError α) (msg : String) (w : World) : World :=
  match r with
  | .ok _ => w
  | .error _ => w.emit (.cout msg)

/-- Title of the preview window. -/
def windowTitle : String := "Frame Window (Press 'Enter' to quit)"

/-- Name of the image file of the frame with the given counter value. -/
def framePath (folder : String) (frame_count : Int) : String :=
  folder ++ "/frame_" ++ toString frame_count ++ ".png"

/-- One pass through the body of `while (true)`: the state afterwards and
whether `break` was executed.  When `frame_count + 1` is not a value of `int`,
the row number and the new counter are what the environment says an overflow
leaves, and the state is marked. -/
def loopIteration (cam : Camera) (keys : Nat → Int) (ovf : Overflow) (folder : String)
    (s : LoopState) : LoopState × Bool :=
  let w := s.world.emit (.AcquireSingleImage t_out)
  match cam.AcquireSingleImage s.captures with
  | .error _ => ({ s with captures := s.captures + 1, world := w }, false)
  | .ok frame =>
    let frame_h : Nat := stored frame.GetHeight s.frame_h
    let w := logFailure frame.GetHeight "Failed to get frame height!" w
    let frame_w : Nat := stored frame.GetWidth s.frame_w
    let w := logFailure frame.GetWidth "Failed to get frame width!" w
    let pImage : Option Nat := stored (frame.GetImage.map some) s.pImage
    let w := logFailure frame.GetImage "Failed to acquire image data. " w
    let time_stamp : Nat := stored frame.GetTimestamp s.time_stamp
    let w := logFailure frame.GetTimestamp "Failed to acquire timestamp. " w
    let cvMat : Mat := ⟨toInt32 frame_h, toInt32 frame_w, pImage⟩
    let file_path := framePath folder s.frame_count
    let w := w.emit (.imwrite file_path cvMat)
    let w := w.emit (.imshow windowTitle cvMat)
    let fits : Bool := inIntRange (s.frame_count + 1)
    let row : Nat := if fits then toUInt32 (s.frame_count + 1) else ovf.row (s.frame_count + 1)
    let w := w.emit (.worksheet_write_number row 0 (u64ToDouble time_stamp))
    let frame_count : Int :=
      if fits then s.frame_count + 1 else ovf.counter (s.frame_count + 1)
    let key : Int := keys s.polls
    let w := w.emit (.waitKey 1 key)
    (⟨frame_h, frame_w, pImage, time_stamp, frame_count, s.captures + 1, s.polls + 1,
        s.overflowed || !fits, w⟩,
      key == ENTER_KEY_CODE)

/-- The loop run for at most `fuel` iterations: the state reached and whether
the loop was left. -/
def runLoop (cam : Camera) (keys : Nat → Int) (ovf : Overflow) (folder : String) :
    Nat → LoopState → LoopState × Bool
  | 0, s => (s, false)
  | fuel + 1, s =>
    match loopIteration cam keys ovf folder s with
    | (s1, true) => (s1, true)
    | (s1, false) => runLoop cam keys ovf folder fuel s1

/-! ## `main` (main.cpp:18-207) -/

/-- How a run stands: returned from `main` with a code, reached undefined
behaviour (indexing an empty camera vector, overflow of the frame counter), died
from an uncaught exception, or is still inside the loop. -/
inductive Status
  | exited (code : Int)
  | undefined
  | terminated (e : FsError)
  | running
  deriving DecidableEq

/-- Result of a run: its status, the locals of the loop (from the point the
loop is entered) and the world. -/
structure Outcome where
  status : Status
  world : World
  loop : Option LoopState

/-- State in which the loop is entered (main.cpp:27-30, 145). -/
def initialLoopState (u : Uninitialised) (w : World) : LoopState :=
  ⟨u.frame_h, u.frame_w, none, u.time_stamp, 0, 0, 0, false, w⟩

/-- From the opened ledger to the end of `main` (main.cpp:139-206). -/
def acquire (cam : Camera) (env : Env) (p : Params) (w : World) (fuel : Nat) : Outcome :=
  let w := w.emitAll [.workbook_new (xlsx_path p.gain p.exposure_time),
    .workbook_add_worksheet "Timestamps",
    .worksheet_write_string 0 0 "Timestamps (ns)"]
  match runLoop cam env.waitKey env.overflow (testing_folder p.gain p.exposure_time) fuel
      (initialLoopState env.uninit w) with
  | (s, left) =>
    if s.overflowed then ⟨.undefined, s.world, some s⟩
    else if left then
      ⟨.exited EXIT_SUCCESS,
        s.world.emitAll [.destroyAllWindows, .Close, .Shutdown, .workbook_close], some s⟩
    else ⟨.running, s.world, some s⟩

/-- From the parameter block to the end of `main` (main.cpp:68-206). -/
def configureAndAcquire (cam : Camera) (env : Env) (w : World) (fuel : Nat) : Outcome :=
  match configureParameters cam env.uninit w with
  | (p, w) =>
    match create_folders env.library w (testing_folder p.gain p.exposure_time) with
    | .error t => ⟨.terminated t.error, t.world, none⟩
    | .ok w =>
      match create_folders env.library w (timestamps_folder p.gain p.exposure_time) with
      | .error t => ⟨.terminated t.error, t.world, none⟩
      | .ok w => acquire cam env p w fuel

/-- Embedding of `main`; `fuel` bounds the number of loop iterations. -/
def main (env : Env) (fuel : Nat) : Outcome :=
  let w : World := ⟨env.fs, []⟩
  let w := w.emit .Startup
  match env.Startup with
  | .error _ => ⟨.exited EXIT_FAILURE, w.emit (.cout "Could not start the API."), none⟩
  | .ok _ =>
    let w := w.emit .GetCameras
    match env.GetCameras with
    | .error _ =>
      ⟨.exited EXIT_FAILURE, (w.emit (.cout "No cameras found.")).emit .Shutdown, none⟩
    | .ok cameras =>
      match cameras with
      | [] => ⟨.undefined, w, none⟩
      | cam :: _ =>
        let w := w.emit (.Open .VmbAccessModeFull)
        match cam.Open with
        | .error _ => ⟨.exited EXIT_FAILURE, w.emit (.cout "Cannot access the cameras."), none⟩
        | .ok _ =>
          let w := w.emit .GetStreams
          match cam.GetStreams with
          | .error _ => ⟨.exited EXIT_FAILURE, w.emit (.cout "Not able to stream."), none⟩
          | .ok _ => configureAndAcquire cam env w fuel

/-- The run gets as far as the acquisition loop: given no iteration, it stands
in the loop. -/
abbrev reachesLoop (env : Env) : Prop := (main env 0).status = .running

/-! ## Views of the record -/

/-- The path of an `imwrite` event. -/
def imagePath? : Event → Option String
  | .imwrite path _ => some path
  | _ => none

/-- Paths handed to `cv::imwrite`, in order. -/
def imagesWritten (t : List Event) : List String := t.filterMap imagePath?

/-- The cell written by a worksheet event, as (row, column, content). -/
def cellWritten? : Event → Option (Nat × Nat × Cell)
  | .worksheet_write_string r c s => some (r, c, .str s)
  | .worksheet_write_number r c n => some (r, c, .num n)
  | _ => none

/-- Cells written to the worksheet, in order. -/
def ledgerCells (t : List Event) : List (Nat × Nat × Cell) := t.filterMap cellWritten?

/-- The feature and value of a `SetValue` event. -/
def valueSet? : Event → Option (String × ℚ)
  | .SetValue name v => some (name, v)
  | _ => none

/-- Values handed to `SetValue`, with the feature they went to. -/
def valuesSet (t : List Event) : List (String × ℚ) := t.filterMap valueSet?

/-- The label and value of a printed parameter line. -/
def valueReported? : Event → Option (String × ℚ)
  | .coutValue label v => some (label, v)
  | _ => none

/-- Labelled values printed to the operator. -/
def valuesReported (t : List Event) : List (String × ℚ) := t.filterMap valueReported?

/-- The key returned by a key poll. -/
def keyPolled? : Event → Option Int
  | .waitKey _ key => some key
  | _ => none

/-- Keys returned by the key polls, in order. -/
def keysPolled (t : List Event) : List Int := t.filterMap keyPolled?

/-- Timestamp getters of the captures that succeeded, in order. -/
def timestampsCaptured (caps : List (Except VmbError Frame)) : List (Except VmbError Nat) :=
  caps.filterMap (fun r => match r with
    | .ok frame => some frame.GetTimestamp
    | .error _ => none)

/-- The path of a `std::filesystem::exists` event. -/
def pathChecked? : Event → Option String
  | .filesystem_exists path => some path
  | _ => none

/-- Paths handed to `std::filesystem::exists`, in order: the directories
`create_folders` was called on. -/
def pathsChecked (t : List Event) : List String := t.filterMap pathChecked?

/-- The path of a `workbook_new` event. -/
def workbookOpened? : Event → Option String
  | .workbook_new path => some path
  | _ => none

/-- Paths handed to `workbook_new`, in order. -/
def workbooksOpened (t : List Event) : List String := t.filterMap workbookOpened?

/-- Whether an event closes the workbook. -/
def isWorkbookClose : Event → Bool
  | .workbook_close => true
  | _ => false

/-- Number of `workbook_close` calls in a record. -/
def ledgerCloses (t : List Event) : Nat := t.countP isWorkbookClose

/-- Whether an event is a session shutdown. -/
def isShutdown : Event → Bool
  | .Shutdown => true
  | _ => false

/-! ## Sample environments -/

/-- Proper ancestors of a path given as characters: every non-empty part that
ends right before a separator. -/
def ancestorsAux : List Char → List Char → List String
  | _, [] => []
  | seen, c :: rest =>
    if c = '/' ∧ seen ≠ [] ∧ seen.head? ≠ some '/' then
      String.mk seen.reverse :: ancestorsAux (c :: seen) rest
    else ancestorsAux (c :: seen) rest

/-- Proper ancestors of a path, outermost first. -/
def ancestors (p : String) : List String := ancestorsAux [] p.data

/-- A sample filesystem library for the scenarios below, which use paths made of
plain names below `..`: creation fails with `ENOTDIR` (20), leaving the state
alone, when the path or one of its ancestors is a regular file, and otherwise
makes the path and its ancestors directories. -/
def sampleLibrary : FsLibrary where
  create_directories := fun fs p =>
    if (ancestors p ++ [p]).any (fun a => fs a == some .regular) then .error (⟨20⟩, fs)
    else .ok (fun q => if q ∈ ancestors p ++ [p] then some .directory else fs q)
  exists_after := by
    intro fs p fs1 h
    simp only at h
    split at h
    · exact absurd h (by simp)
    · injection h with h
      subst h
      simp [fsExists]

/-- A sample build in which the overflowing counter wraps around. -/
def wrappingBuild : Overflow := ⟨fun x => toUInt32 (toInt32 x), toInt32⟩

/-- A filesystem in which only `.` and `..` exist. -/
def startFs : FileSystem := fun q => if q = "." ∨ q = ".." then some .directory else none

/-- A 640×480 frame with the given hardware timestamp, all getters succeeding. -/
def frameAt (t : Nat) : Frame := ⟨.ok 480, .ok 640, .ok 4096, .ok t⟩

/-- A frame every getter of which fails. -/
def brokenFrame : Frame :=
  ⟨.error (.other (-1)), .error (.other (-1)), .error (.other (-1)), .error (.other (-1))⟩

/-- Some contents for the uninitialised locals. -/
def garbage : Uninitialised := ⟨11, 12, 13, 14, 15, 16, 17, 18⟩

/-- A camera that delivers three frames with timestamps 100, 250 and 400, with
a timed-out capture before the first and one before the third, and times out
ever after. -/
def demoCam : Camera :=
  { Open := .ok ()
    GetStreams := .ok ()
    GetValue := fun _ => .ok 5
    AcquireSingleImage := fun k =>
      if k = 1 then .ok (frameAt 100)
      else if k = 2 then .ok (frameAt 250)
      else if k = 4 then .ok (frameAt 400)
      else .error .timeout }

/-- The operator presses Enter at the poll with the given index and no key at
the others. -/
def enterAt (j : Nat) : Nat → Int := fun k => if k = j then 13 else -1

/-- The three-frame scenario: Enter is pressed after the third frame. -/
def demoEnv : Env :=
  ⟨.ok (), .ok [demoCam], garbage, enterAt 2, startFs, sampleLibrary, wrappingBuild⟩

/-- A camera whose every capture times out. -/
def timeoutCam : Camera := ⟨.ok (), .ok (), fun _ => .ok 5, fun _ => .error .timeout⟩

/-- A device that only times out, with Enter held down. -/
def timeoutEnv : Env :=
  ⟨.ok (), .ok [timeoutCam], garbage, fun _ => 13, startFs, sampleLibrary, wrappingBuild⟩

/-- A camera whose first capture delivers a frame with timestamp
9007199254740993, which is `2^53 + 1`, and whose later captures deliver frames
with failing getters. -/
def lateCam : Camera :=
  ⟨.ok (), .ok (), fun _ => .ok 5,
    fun k => if k = 0 then .ok (frameAt 9007199254740993) else .ok brokenFrame⟩

/-- One frame with timestamp `2^53 + 1`, Enter pressed after it. -/
def lateEnv : Env :=
  ⟨.ok (), .ok [lateCam], garbage, enterAt 0, startFs, sampleLibrary, wrappingBuild⟩

/-- A camera whose first capture reads timestamp 100, whose second capture times
out and whose later captures deliver frames with failing getters. -/
def flakyCam : Camera :=
  ⟨.ok (), .ok (), fun _ => .ok 5,
    fun k => if k = 0 then .ok (frameAt 100) else if k = 1 then .error .timeout
      else .ok brokenFrame⟩

/-- SDK startup fails. -/
def startupFailsEnv : Env :=
  ⟨.error (.other (-1)), .ok [demoCam], garbage, enterAt 2, startFs, sampleLibrary,
    wrappingBuild⟩

/-- Enumeration fails. -/
def enumerationFailsEnv : Env :=
  ⟨.ok (), .error (.other (-1)), garbage, enterAt 2, startFs, sampleLibrary, wrappingBuild⟩

/-- Enumeration succeeds with an empty camera vector. -/
def noCameraEnv : Env :=
  ⟨.ok (), .ok [], garbage, enterAt 2, startFs, sampleLibrary, wrappingBuild⟩

/-- Opening the first camera fails. -/
def openFailsEnv : Env :=
  ⟨.ok (), .ok [{ demoCam with Open := .error (.other (-6)) }], garbage, enterAt 2, startFs,
    sampleLibrary, wrappingBuild⟩

/-- Resolving the streams of the first camera fails. -/
def streamsFailEnv : Env :=
  ⟨.ok (), .ok [{ demoCam with GetStreams := .error (.other (-1)) }], garbage, enterAt 2,
    startFs, sampleLibrary, wrappingBuild⟩

/-- State at loop entry over an empty record. -/
def freshState : LoopState := initialLoopState garbage ⟨startFs, []⟩

/-! ## Record lemmas -/

@[simp] theorem emit_trace (w : World) (e : Event) : (w.emit e).trace = w.trace ++ [e] := rfl

@[simp] theorem emit_fs (w : World) (e : Event) : (w.emit e).fs = w.fs := rfl

@[simp] theorem emitAll_trace (w : World) (es : List Event) :
    (w.emitAll es).trace = w.trace ++ es := rfl

@[simp] theorem emitAll_fs (w : World) (es : List Event) : (w.emitAll es).fs = w.fs := rfl

theorem imagesWritten_append (a b : List Event) :
    imagesWritten (a ++ b) = imagesWritten a ++ imagesWritten b := by
  simp [imagesWritten]

theorem ledgerCells_append (a b : List Event) :
    ledgerCells (a ++ b) = ledgerCells a ++ ledgerCells b := by
  simp [ledgerCells]

theorem keysPolled_append (a b : List Event) :
    keysPolled (a ++ b) = keysPolled a ++ keysPolled b := by
  simp [keysPolled]

theorem ledgerCloses_append (a b : List Event) :
    ledgerCloses (a ++ b) = ledgerCloses a + ledgerCloses b := by
  simp [ledgerCloses]

theorem logFailure_trace {α : Type} (r : Except VmbError α) (msg : String) (w : World) :
    ∃ es, (logFailure r msg w).trace = w.trace ++ es ∧ ∀ e ∈ es, ∃ text, e = .cout text := by
  cases r with
  | ok v => exact ⟨[], by simp [logFailure], by simp⟩
  | error e => exact ⟨[.cout msg], by simp [logFailure], by simp⟩

@[simp] theorem logFailure_fs {α : Type} (r : Except VmbError α) (msg : String) (w : World) :
    (logFailure r msg w).fs = w.fs := by
  cases r <;> rfl

@[simp] theorem imagesWritten_logFailure {α : Type} (r : Except VmbError α) (msg : String)
    (w : World) : imagesWritten (logFailure r msg w).trace = imagesWritten w.trace := by
  cases r <;> simp [logFailure, imagesWritten, imagePath?]

@[simp] theorem ledgerCells_logFailure {α : Type} (r : Except VmbError α) (msg : String)
    (w : World) : ledgerCells (logFailure r msg w).trace = ledgerCells w.trace := by
  cases r <;> simp [logFailure, ledgerCells, cellWritten?]

@[simp] theorem keysPolled_logFailure {α : Type} (r : Except VmbError α) (msg : String)
    (w : World) : keysPolled (logFailure r msg w).trace = keysPolled w.trace := by
  cases r <;> simp [logFailure, keysPolled, keyPolled?]

@[simp] theorem ledgerCloses_logFailure {α : Type} (r : Except VmbError α) (msg : String)
    (w : World) : ledgerCloses (logFailure r msg w).trace = ledgerCloses w.trace := by
  cases r <;> simp [logFailure, ledgerCloses, isWorkbookClose]

/-! ## One iteration -/

/-- Effect of an iteration whose capture failed. -/
theorem loopIteration_error (cam : Camera) (keys : Nat → Int) (ovf : Overflow) (folder : String)
    (s : LoopState) (e : VmbError) (h : cam.AcquireSingleImage s.captures = .error e) :
    loopIteration cam keys ovf folder s
      = ({ s with captures := s.captures + 1,
                  world := s.world.emit (.AcquireSingleImage t_out) }, false) := by
  simp [loopIteration, h]

/-- Effect of an iteration whose capture succeeded. -/
theorem loopIteration_ok (cam : Camera) (keys : Nat → Int) (ovf : Overflow) (folder : String)
    (s : LoopState) (frame : Frame) (h : cam.AcquireSingleImage s.captures = .ok frame) :
    (loopIteration cam keys ovf folder s).1.frame_count
      = (if inIntRange (s.frame_count + 1) then s.frame_count + 1
          else ovf.counter (s.frame_count + 1)) ∧
    (loopIteration cam keys ovf folder s).1.time_stamp = stored frame.GetTimestamp s.time_stamp ∧
    (loopIteration cam keys ovf folder s).1.captures = s.captures + 1 ∧
    (loopIteration cam keys ovf folder s).1.polls = s.polls + 1 ∧
    (loopIteration cam keys ovf folder s).1.overflowed
      = (s.overflowed || !inIntRange (s.frame_count + 1)) ∧
    (loopIteration cam keys ovf folder s).1.world.fs = s.world.fs ∧
    imagesWritten (loopIteration cam keys ovf folder s).1.world.trace
      = imagesWritten s.world.trace ++ [framePath folder s.frame_count] ∧
    ledgerCells (loopIteration cam keys ovf folder s).1.world.trace
      = ledgerCells s.world.trace ++
        [((if inIntRange (s.frame_count + 1) then toUInt32 (s.frame_count + 1)
            else ovf.row (s.frame_count + 1)), 0,
          .num (u64ToDouble (stored frame.GetTimestamp s.time_stamp)))] ∧
    keysPolled (loopIteration cam keys ovf folder s).1.world.trace
      = keysPolled s.world.trace ++ [keys s.polls] ∧
    ledgerCloses (loopIteration cam keys ovf folder s).1.world.trace
      = ledgerCloses s.world.trace ∧
    (loopIteration cam keys ovf folder s).2 = (keys s.polls == ENTER_KEY_CODE) := by
  simp only [loopIteration, h, emit_trace, emit_fs, logFailure_fs, imagesWritten_append,
    ledgerCells_append, keysPolled_append, ledgerCloses_append, imagesWritten_logFailure,
    ledgerCells_logFailure, keysPolled_logFailure, ledgerCloses_logFailure]
  simp [imagesWritten, ledgerCells, keysPolled, ledgerCloses, imagePath?, cellWritten?,
    keyPolled?, isWorkbookClose]

/-! ## Machine arithmetic -/

theorem inIntRange_succ (c : Int) (h0 : 0 ≤ c) (h1 : c < 2147483647) :
    inIntRange (c + 1) = true := by
  unfold inIntRange INT_MIN INT_MAX
  simp only [decide_eq_true_eq]
  omega

theorem toUInt32_of_nonneg (k : Nat) (h : k < 4294967296) : toUInt32 (k : Int) = k := by
  unfold toUInt32
  omega

theorem u64ToDouble_exact (t : Nat) (h : t ≤ 9007199254740992) : u64ToDouble t = t := by
  unfold u64ToDouble
  rw [if_pos h]

/-- The conversion at some values above `2^53`: rounding down, rounding up, a
tie going to the even neighbour, and the largest 64-bit value. -/
theorem u64ToDouble_samples :
    u64ToDouble 9007199254740993 = 9007199254740992 ∧
    u64ToDouble 9007199254740995 = 9007199254740996 ∧
    u64ToDouble 9007199254740994 = 9007199254740994 ∧
    u64ToDouble 1700000000123456789 = 1700000000123456768 ∧
    u64ToDouble 18446744073709551615 = 18446744073709551616 := by
  decide

/-- Effect of an iteration whose capture succeeded, while the counter does not
overflow. -/
theorem loopIteration_ok_fits (cam : Camera) (keys : Nat → Int) (ovf : Overflow)
    (folder : String) (s : LoopState) (frame : Frame) (k : Nat)
    (h : cam.AcquireSingleImage s.captures = .ok frame)
    (hk : s.frame_count = k) (hmax : k < 2147483647) :
    (loopIteration cam keys ovf folder s).1.frame_count = ((k + 1 : Nat) : Int) ∧
    (loopIteration cam keys ovf folder s).1.overflowed = s.overflowed ∧
    imagesWritten (loopIteration cam keys ovf folder s).1.world.trace
      = imagesWritten s.world.trace ++ [folder ++ "/frame_" ++ toString k ++ ".png"] ∧
    ledgerCells (loopIteration cam keys ovf folder s).1.world.trace
      = ledgerCells s.world.trace ++
        [(k + 1, 0, .num (u64ToDouble (stored frame.GetTimestamp s.time_stamp)))] := by
  obtain ⟨h1, -, -, -, h5, -, h7, h8, -, -, -⟩ := loopIteration_ok cam keys ovf folder s frame h
  have hfit : inIntRange (s.frame_count + 1) = true :=
    inIntRange_succ _ (by omega) (by omega)
  have hrow : toUInt32 (s.frame_count + 1) = k + 1 := by
    have := toUInt32_of_nonneg (k + 1) (by omega)
    rw [hk]
    push_cast at this
    exact this
  rw [hfit] at h1 h5 h8
  simp only [if_true, Bool.not_true, Bool.or_false] at h1 h5 h8
  refine ⟨?_, h5, ?_, ?_⟩
  · rw [h1, hk]; push_cast; rfl
  · rw [h7, hk]; rfl
  · rw [h8]
    exact congrArg (fun r => ledgerCells s.world.trace ++
      [(r, 0, Cell.num (u64ToDouble (stored frame.GetTimestamp s.time_stamp)))]) hrow

/-! ## The loop -/

/-- While every capture fails the loop keeps running and only capture requests
are added to the record. -/
theorem runLoop_all_fail (cam : Camera) (keys : Nat → Int) (ovf : Overflow) (folder : String)
    (hfail : ∀ k, ∃ e, cam.AcquireSingleImage k = .error e) :
    ∀ (fuel : Nat) (s : LoopState),
      runLoop cam keys ovf folder fuel s
        = ({ s with captures := s.captures + fuel,
                    world := s.world.emitAll
                      (List.replicate fuel (.AcquireSingleImage t_out)) }, false) := by
  intro fuel
  induction fuel with
  | zero => intro s; simp [runLoop, World.emitAll]
  | succ n ih =>
    intro s
    obtain ⟨e, he⟩ := hfail s.captures
    rw [runLoop, loopIteration_error cam keys ovf folder s e he]
    simp only [ih]
    simp [World.emitAll, World.emit, List.replicate_succ, Nat.add_assoc, Nat.add_comm 1 n]

theorem runLoop_continue (cam : Camera) (keys : Nat → Int) (ovf : Overflow) (folder : String) (fuel : Nat)
    (s : LoopState) (h : (loopIteration cam keys ovf folder s).2 = false) :
    runLoop cam keys ovf folder (fuel + 1) s
      = runLoop cam keys ovf folder fuel (loopIteration cam keys ovf folder s).1 := by
  rw [runLoop]
  rcases hr : loopIteration cam keys ovf folder s with ⟨s1, b⟩
  rw [hr] at h
  simp only at h
  subst h
  rfl

theorem runLoop_break (cam : Camera) (keys : Nat → Int) (ovf : Overflow) (folder : String) (fuel : Nat)
    (s : LoopState) (h : (loopIteration cam keys ovf folder s).2 = true) :
    runLoop cam keys ovf folder (fuel + 1) s = ((loopIteration cam keys ovf folder s).1, true) := by
  rw [runLoop]
  rcases hr : loopIteration cam keys ovf folder s with ⟨s1, b⟩
  rw [hr] at h
  simp only at h
  subst h
  rfl

/-- An iteration that leaves the loop ends with a 1 ms key poll answered by
Enter. -/
theorem loopIteration_break_last (cam : Camera) (keys : Nat → Int) (ovf : Overflow) (folder : String)
    (s : LoopState) (h : (loopIteration cam keys ovf folder s).2 = true) :
    (loopIteration cam keys ovf folder s).1.world.trace.getLast? = some (.waitKey 1 13) := by
  cases hc : cam.AcquireSingleImage s.captures with
  | error e =>
    rw [loopIteration_error cam keys ovf folder s e hc] at h
    exact absurd h (by simp)
  | ok frame =>
    simp only [loopIteration, hc] at h ⊢
    have hk : keys s.polls = 13 := by simpa [ENTER_KEY_CODE] using h
    simp [hk]

/-- The loop is only left through an iteration that polled Enter. -/
theorem runLoop_left_last (cam : Camera) (keys : Nat → Int) (ovf : Overflow) (folder : String) :
    ∀ (fuel : Nat) (s s1 : LoopState), runLoop cam keys ovf folder fuel s = (s1, true) →
      s1.world.trace.getLast? = some (.waitKey 1 13) := by
  intro fuel
  induction fuel with
  | zero =>
    intro s s1 h
    simp [runLoop] at h
  | succ n ih =>
    intro s s1 h
    cases hb : (loopIteration cam keys ovf folder s).2 with
    | true =>
      rw [runLoop_break cam keys ovf folder n s hb] at h
      injection h with h1 _
      rw [← h1]
      exact loopIteration_break_last cam keys ovf folder s hb
    | false =>
      rw [runLoop_continue cam keys ovf folder n s hb] at h
      exact ih _ s1 h

theorem timestampsCaptured_cons_error (e : VmbError) (caps : List (Except VmbError Frame)) :
    timestampsCaptured (.error e :: caps) = timestampsCaptured caps := by
  simp [timestampsCaptured]

theorem timestampsCaptured_cons_ok (frame : Frame) (caps : List (Except VmbError Frame)) :
    timestampsCaptured (.ok frame :: caps) = frame.GetTimestamp :: timestampsCaptured caps := by
  simp [timestampsCaptured]

/-- The loop over a stretch of captures whose successes read the timestamps
`ts`, Enter being polled after the last of them and not before, the counter
staying within `int`: the loop is left, and the frames and rows of the stretch
are added to the record. -/
theorem runLoop_captures (cam : Camera) (keys : Nat → Int) (ovf : Overflow) (folder : String) :
    ∀ (m : Nat) (s : LoopState) (ts : List Nat) (k : Nat),
      timestampsCaptured ((List.range' s.captures m).map cam.AcquireSingleImage)
        = ts.map .ok →
      ts ≠ [] →
      (∀ i, i + 1 < ts.length → keys (s.polls + i) ≠ ENTER_KEY_CODE) →
      keys (s.polls + (ts.length - 1)) = ENTER_KEY_CODE →
      s.frame_count = k → k + ts.length ≤ 2147483647 →
      ∀ fuel, m ≤ fuel →
      ∃ s1, runLoop cam keys ovf folder fuel s = (s1, true) ∧
        imagesWritten s1.world.trace
          = imagesWritten s.world.trace
            ++ (List.range' k ts.length).map
                (fun i => folder ++ "/frame_" ++ toString i ++ ".png") ∧
        ledgerCells s1.world.trace
          = ledgerCells s.world.trace
            ++ (ts.enumFrom (k + 1)).map (fun p => (p.1, 0, Cell.num (u64ToDouble p.2))) ∧
        ledgerCloses s1.world.trace = ledgerCloses s.world.trace ∧
        s1.world.fs = s.world.fs ∧
        s1.overflowed = s.overflowed := by
  intro m
  induction m with
  | zero =>
    intro s ts k hts hne
    simp [timestampsCaptured] at hts
    exact absurd hts hne
  | succ m ih =>
    intro s ts k hts hne hk hlast hfc hbound fuel hfuel
    obtain ⟨f, rfl⟩ : ∃ f, fuel = f + 1 := ⟨fuel - 1, by omega⟩
    rw [List.range'_succ, List.map_cons] at hts
    cases hc : cam.AcquireSingleImage s.captures with
    | error e =>
      rw [hc, timestampsCaptured_cons_error] at hts
      have hit := loopIteration_error cam keys ovf folder s e hc
      have hb : (loopIteration cam keys ovf folder s).2 = false := by rw [hit]
      rw [runLoop_continue cam keys ovf folder f s hb, hit]
      obtain ⟨s1, h1, h2, h3, h4, h5, h6⟩ :=
        ih { s with captures := s.captures + 1,
                    world := s.world.emit (.AcquireSingleImage t_out) } ts k hts hne hk hlast
          hfc hbound f (by omega)
      refine ⟨s1, h1, ?_, ?_, ?_, ?_, ?_⟩
      · rw [h2]; simp [imagesWritten, imagePath?]
      · rw [h3]; simp [ledgerCells, cellWritten?]
      · rw [h4]; simp [ledgerCloses, isWorkbookClose]
      · rw [h5]; rfl
      · rw [h6]
    | ok frame =>
      rw [hc, timestampsCaptured_cons_ok] at hts
      obtain ⟨-, -, hcap, hpolls, -, hfs, -, -, -, hcl, hbrk⟩ :=
        loopIteration_ok cam keys ovf folder s frame hc
      cases ts with
      | nil => exact absurd rfl hne
      | cons t ts1 =>
        simp only [List.length_cons] at hbound
        obtain ⟨hfc1, hov, himg, hled⟩ :=
          loopIteration_ok_fits cam keys ovf folder s frame k hc hfc (by omega)
        rw [List.map_cons, List.cons.injEq] at hts
        obtain ⟨hstamp, hrest⟩ := hts
        have hst : stored frame.GetTimestamp s.time_stamp = t := by rw [hstamp]; rfl
        rw [hst] at hled
        cases ts1 with
        | nil =>
          have hb : (loopIteration cam keys ovf folder s).2 = true := by
            rw [hbrk]
            simpa using hlast
          rw [runLoop_break cam keys ovf folder f s hb]
          exact ⟨_, rfl, by rw [himg]; rfl, by rw [hled]; rfl, hcl, hfs, hov⟩
        | cons t2 ts2 =>
          have hb : (loopIteration cam keys ovf folder s).2 = false := by
            rw [hbrk]
            have := hk 0 (by simp)
            simpa using this
          rw [runLoop_continue cam keys ovf folder f s hb]
          simp only [List.length_cons] at hbound
          obtain ⟨s1, h1, h2, h3, h4, h5, h6⟩ :=
            ih (loopIteration cam keys ovf folder s).1 (t2 :: ts2) (k + 1)
              (by rw [hcap]; exact hrest)
              (by simp)
              (by
                intro i hi
                rw [hpolls, Nat.add_assoc, Nat.add_comm 1 i]
                exact hk (i + 1) (by simpa using hi))
              (by
                rw [hpolls]
                have : s.polls + 1 + ((t2 :: ts2).length - 1)
                    = s.polls + ((t :: t2 :: ts2).length - 1) := by
                  simp only [List.length_cons]; omega
                rw [this]; exact hlast)
              hfc1 (by simp only [List.length_cons]; omega)
              f (by omega)
          refine ⟨s1, h1, ?_, ?_, ?_, ?_, ?_⟩
          · rw [h2, himg, List.append_assoc]
            rfl
          · rw [h3, hled, List.append_assoc]
            rfl
          · rw [h4, hcl]
          · rw [h5, hfs]
          · rw [h6, hov]

/-! ## Setup -/

/-- The three ways through `create_folders`. -/
theorem create_folders_cases (lib : FsLibrary) (w : World) (path : String) :
    (fsExists w.fs path = true →
      create_folders lib w path
        = .ok ((w.emit (.filesystem_exists path)).emit
            (.cout ("/// Folder exists at          :       " ++ path)))) ∧
    (fsExists w.fs path = false → ∀ fs1, lib.create_directories w.fs path = .ok fs1 →
      create_folders lib w path
        = .ok { (((w.emit (.filesystem_exists path)).emit
            (.cout ("/// Creating folder at        :       " ++ path))).emit
            (.create_directories path)) with fs := fs1 }) ∧
    (fsExists w.fs path = false → ∀ e fs1, lib.create_directories w.fs path = .error (e, fs1) →
      create_folders lib w path
        = .error ⟨e, { (((w.emit (.filesystem_exists path)).emit
            (.cout ("/// Creating folder at        :       " ++ path))).emit
            (.create_directories path)) with fs := fs1 }⟩) := by
  refine ⟨?_, ?_, ?_⟩
  · intro h
    simp [create_folders, h]
  · intro h fs1 h1
    simp [create_folders, h, h1]
  · intro h e fs1 h1
    simp [create_folders, h, h1]

/-- A successful `create_folders` records the existence check of its path and
adds nothing to the views of images, ledger and key polls. -/
theorem create_folders_views (lib : FsLibrary) (w w1 : World) (path : String)
    (h : create_folders lib w path = .ok w1) :
    imagesWritten w1.trace = imagesWritten w.trace ∧
    ledgerCells w1.trace = ledgerCells w.trace ∧
    ledgerCloses w1.trace = ledgerCloses w.trace ∧
    keysPolled w1.trace = keysPolled w.trace ∧
    pathsChecked w1.trace = pathsChecked w.trace ++ [path] ∧
    workbooksOpened w1.trace = workbooksOpened w.trace := by
  obtain ⟨c1, c2, c3⟩ := create_folders_cases lib w path
  cases hx : fsExists w.fs path with
  | true =>
    rw [c1 hx] at h
    injection h with h
    subst h
    simp [imagesWritten, ledgerCells, ledgerCloses, keysPolled, pathsChecked, workbooksOpened,
      imagePath?, cellWritten?, isWorkbookClose, keyPolled?, pathChecked?, workbookOpened?]
  | false =>
    cases hd : lib.create_directories w.fs path with
    | ok fs1 =>
      rw [c2 hx fs1 hd] at h
      injection h with h
      subst h
      simp [imagesWritten, ledgerCells, ledgerCloses, keysPolled, pathsChecked,
        workbooksOpened, imagePath?, cellWritten?, isWorkbookClose, keyPolled?, pathChecked?,
        workbookOpened?]
    | error e =>
      obtain ⟨e1, fs1⟩ := e
      rw [c3 hx e1 fs1 hd] at h
      exact absurd h (by simp)

/-- The parameter block leaves gain 0 and exposure time 150 in the locals. -/
theorem configureParameters_values (cam : Camera) (u : Uninitialised) (w : World) :
    (configureParameters cam u w).1.gain = 0 ∧
    (configureParameters cam u w).1.exposure_time = 150 := ⟨rfl, rfl⟩

/-- The parameter block adds nothing to the views of images, ledger and key
polls. -/
theorem configureParameters_views (cam : Camera) (u : Uninitialised) (w : World) :
    imagesWritten (configureParameters cam u w).2.trace = imagesWritten w.trace ∧
    ledgerCells (configureParameters cam u w).2.trace = ledgerCells w.trace ∧
    ledgerCloses (configureParameters cam u w).2.trace = ledgerCloses w.trace ∧
    keysPolled (configureParameters cam u w).2.trace = keysPolled w.trace ∧
    pathsChecked (configureParameters cam u w).2.trace = pathsChecked w.trace ∧
    workbooksOpened (configureParameters cam u w).2.trace = workbooksOpened w.trace := by
  simp [configureParameters, imagesWritten, ledgerCells, ledgerCloses, keysPolled, pathsChecked,
    workbooksOpened, imagePath?, cellWritten?, isWorkbookClose, keyPolled?, pathChecked?,
    workbookOpened?]

/-- A run that reaches the loop: when the ledger is opened the record holds no
image, no cell, no key poll and no close, gain and exposure time are 0 and 150,
and `main` is what remains from the opening of the ledger. -/
theorem main_of_running (env : Env) (cam : Camera) (rest : List Camera)
    (hcam : env.GetCameras = .ok (cam :: rest))
    (hloop : reachesLoop env) :
    ∃ (p : Params) (w0 : World),
      p.gain = 0 ∧ p.exposure_time = 150 ∧
      imagesWritten w0.trace = [] ∧
      ledgerCells w0.trace = [] ∧
      ledgerCloses w0.trace = 0 ∧
      keysPolled w0.trace = [] ∧
      pathsChecked w0.trace = [testing_folder 0 150, timestamps_folder 0 150] ∧
      workbooksOpened w0.trace = [] ∧
      ∀ fuel, main env fuel = acquire cam env p w0 fuel := by
  unfold reachesLoop main at hloop
  unfold main
  rw [hcam] at hloop
  simp only [hcam]
  cases hs : env.Startup with
  | error e => rw [hs] at hloop; simp at hloop
  | ok u =>
    rw [hs] at hloop
    simp only at hloop ⊢
    cases ho : cam.Open with
    | error e => rw [ho] at hloop; simp at hloop
    | ok u1 =>
      rw [ho] at hloop
      simp only at hloop ⊢
      cases hg : cam.GetStreams with
      | error e => rw [hg] at hloop; simp at hloop
      | ok u2 =>
        rw [hg] at hloop
        simp only at hloop ⊢
        unfold configureAndAcquire at hloop ⊢
        obtain ⟨hgain, hexp⟩ := configureParameters_values cam env.uninit
          (((((⟨env.fs, []⟩ : World).emit .Startup).emit .GetCameras).emit (.Open .VmbAccessModeFull)).emit
            .GetStreams)
        obtain ⟨hv1, hv2, hv3, hv4, hv5, hv6⟩ := configureParameters_views cam env.uninit
          (((((⟨env.fs, []⟩ : World).emit .Startup).emit .GetCameras).emit (.Open .VmbAccessModeFull)).emit
            .GetStreams)
        rcases hcp : configureParameters cam env.uninit
          (((((⟨env.fs, []⟩ : World).emit .Startup).emit .GetCameras).emit (.Open .VmbAccessModeFull)).emit
            .GetStreams) with ⟨p, w1⟩
        rw [hcp] at hloop hgain hexp hv1 hv2 hv3 hv4 hv5 hv6
        simp only at hloop hgain hexp hv1 hv2 hv3 hv4 hv5 hv6 ⊢
        cases hf1 : create_folders env.library w1 (testing_folder p.gain p.exposure_time) with
        | error t => rw [hf1] at hloop; simp at hloop
        | ok w2 =>
          rw [hf1] at hloop
          simp only at hloop ⊢
          cases hf2 : create_folders env.library w2 (timestamps_folder p.gain p.exposure_time) with
          | error t => rw [hf2] at hloop; simp at hloop
          | ok w3 =>
            obtain ⟨a1, a2, a3, a4, a5, a6⟩ := create_folders_views env.library w1 w2 _ hf1
            obtain ⟨b1, b2, b3, b4, b5, b6⟩ := create_folders_views env.library w2 w3 _ hf2
            refine ⟨p, w3, hgain, hexp, ?_, ?_, ?_, ?_, ?_, ?_, fun fuel => rfl⟩
            · rw [b1, a1, hv1]; rfl
            · rw [b2, a2, hv2]; rfl
            · rw [b3, a3, hv3]; rfl
            · rw [b4, a4, hv4]; rfl
            · rw [b5, a5, hv5, hgain, hexp]; rfl
            · rw [b6, a6, hv6]; rfl

/-- A run that reaches the loop has a first camera. -/
theorem reachesLoop_cameras (env : Env) (h : reachesLoop env) :
    ∃ cam rest, env.GetCameras = .ok (cam :: rest) := by
  unfold reachesLoop main at h
  cases hs : env.Startup with
  | error e => rw [hs] at h; simp at h
  | ok u =>
    rw [hs] at h
    simp only at h
    cases hg : env.GetCameras with
    | error e => rw [hg] at h; simp at h
    | ok cameras =>
      cases cameras with
      | nil => rw [hg] at h; simp at h
      | cons cam rest => exact ⟨cam, rest, rfl⟩

/-- A getter's failure message is invisible to a view that ignores printed
lines. -/
theorem filterMap_logFailure {α β : Type} (sel : Event → Option β)
    (hsel : ∀ text, sel (.cout text) = none) (r : Except VmbError α) (msg : String)
    (w : World) : (logFailure r msg w).trace.filterMap sel = w.trace.filterMap sel := by
  cases r with
  | ok v => rfl
  | error e => simp [logFailure, hsel]

/-- An iteration checks no path and opens no workbook. -/
theorem loopIteration_layout_views (cam : Camera) (keys : Nat → Int) (ovf : Overflow) (folder : String)
    (s : LoopState) :
    pathsChecked (loopIteration cam keys ovf folder s).1.world.trace = pathsChecked s.world.trace ∧
    workbooksOpened (loopIteration cam keys ovf folder s).1.world.trace
      = workbooksOpened s.world.trace := by
  cases hc : cam.AcquireSingleImage s.captures with
  | error e =>
    rw [loopIteration_error cam keys ovf folder s e hc]
    simp [pathsChecked, workbooksOpened, pathChecked?, workbookOpened?]
  | ok frame =>
    simp only [loopIteration, hc, pathsChecked, workbooksOpened, emit_trace,
      List.filterMap_append, filterMap_logFailure pathChecked? (fun _ => rfl),
      filterMap_logFailure workbookOpened? (fun _ => rfl)]
    simp [pathChecked?, workbookOpened?]

/-- The loop checks no path and opens no workbook. -/
theorem runLoop_layout_views (cam : Camera) (keys : Nat → Int) (ovf : Overflow) (folder : String) :
    ∀ (fuel : Nat) (s : LoopState),
      pathsChecked (runLoop cam keys ovf folder fuel s).1.world.trace
        = pathsChecked s.world.trace ∧
      workbooksOpened (runLoop cam keys ovf folder fuel s).1.world.trace
        = workbooksOpened s.world.trace := by
  intro fuel
  induction fuel with
  | zero => intro s; exact ⟨rfl, rfl⟩
  | succ n ih =>
    intro s
    obtain ⟨h1, h2⟩ := loopIteration_layout_views cam keys ovf folder s
    cases hb : (loopIteration cam keys ovf folder s).2 with
    | true =>
      rw [runLoop_break cam keys ovf folder n s hb]
      exact ⟨h1, h2⟩
    | false =>
      rw [runLoop_continue cam keys ovf folder n s hb]
      obtain ⟨i1, i2⟩ := ih (loopIteration cam keys ovf folder s).1
      exact ⟨i1.trans h1, i2.trans h2⟩

/-- In a run that reaches the loop `create_folders` is called on the image
directory and on the timestamp directory, in this order, and one workbook is
opened, at the ledger path; the loop adds no such call. -/
theorem main_layout (env : Env) (fuel : Nat) (hloop : reachesLoop env) :
    pathsChecked (main env fuel).world.trace
      = [testing_folder 0 150, timestamps_folder 0 150] ∧
    workbooksOpened (main env fuel).world.trace = [xlsx_path 0 150] := by
  obtain ⟨cam, rest, hcam⟩ := reachesLoop_cameras env hloop
  obtain ⟨p, w0, hg, he, -, -, -, -, hp, hw, hmain⟩ := main_of_running env cam rest hcam hloop
  rw [hmain fuel]
  simp only [acquire, hg, he]
  obtain ⟨h1, h2⟩ := runLoop_layout_views cam env.waitKey env.overflow (testing_folder 0 150) fuel
    (initialLoopState env.uninit
      (w0.emitAll [.workbook_new (xlsx_path 0 150), .workbook_add_worksheet "Timestamps",
        .worksheet_write_string 0 0 "Timestamps (ns)"]))
  rcases hr : runLoop cam env.waitKey env.overflow (testing_folder 0 150) fuel
    (initialLoopState env.uninit
      (w0.emitAll [.workbook_new (xlsx_path 0 150), .workbook_add_worksheet "Timestamps",
        .worksheet_write_string 0 0 "Timestamps (ns)"])) with ⟨s, b⟩
  rw [hr] at h1 h2
  simp only [initialLoopState, emitAll_trace, pathsChecked, workbooksOpened,
    List.filterMap_append] at h1 h2 hp hw
  simp only
  split
  · simp only [pathsChecked, workbooksOpened, h1, h2, hp, hw]
    simp [pathChecked?, workbookOpened?]
  · split
    · simp only [pathsChecked, workbooksOpened, emitAll_trace, List.filterMap_append, h1, h2,
        hp, hw]
      simp [pathChecked?, workbookOpened?]
    · simp only [pathsChecked, workbooksOpened, h1, h2, hp, hw]
      simp [pathChecked?, workbookOpened?]

/-- Whether `create_folders` returns, and the filesystem it leaves, depend on
the filesystem only, not on the record. -/
theorem create_folders_fs (lib : FsLibrary) (w : World) (t : List Event) (path : String)
    (w1 : World) (h : create_folders lib w path = .ok w1) :
    ∃ w2, create_folders lib ⟨w.fs, t⟩ path = .ok w2 ∧ w2.fs = w1.fs := by
  obtain ⟨c1, c2, c3⟩ := create_folders_cases lib w path
  obtain ⟨d1, d2, -⟩ := create_folders_cases lib ⟨w.fs, t⟩ path
  cases hx : fsExists w.fs path with
  | true =>
    rw [c1 hx] at h
    injection h with h
    subst h
    exact ⟨_, d1 hx, rfl⟩
  | false =>
    cases hd : lib.create_directories w.fs path with
    | ok fs1 =>
      rw [c2 hx fs1 hd] at h
      injection h with h
      subst h
      exact ⟨_, d2 hx fs1 hd, rfl⟩
    | error e =>
      obtain ⟨e1, fs1⟩ := e
      rw [c3 hx e1 fs1 hd] at h
      exact absurd h (by simp)

/-- What `reachesLoop` asks of the environment: the SDK starts, enumeration
succeeds with at least one camera, the first camera opens and resolves its
streams, and `create_folders` returns on the image directory and then on the
timestamp directory. -/
theorem reachesLoop_iff (env : Env) :
    reachesLoop env ↔
      ∃ cam rest w1 w2, env.Startup = .ok () ∧ env.GetCameras = .ok (cam :: rest) ∧
        cam.Open = .ok () ∧ cam.GetStreams = .ok () ∧
        create_folders env.library ⟨env.fs, []⟩ (testing_folder 0 150) = .ok w1 ∧
        create_folders env.library ⟨w1.fs, []⟩ (timestamps_folder 0 150) = .ok w2 := by
  constructor
  · intro h
    unfold reachesLoop main at h
    cases hs : env.Startup with
    | error e => rw [hs] at h; simp at h
    | ok u =>
      rw [hs] at h
      simp only at h
      cases hg : env.GetCameras with
      | error e => rw [hg] at h; simp at h
      | ok cameras =>
        rw [hg] at h
        cases cameras with
        | nil => simp at h
        | cons cam rest =>
          simp only at h
          cases ho : cam.Open with
          | error e => rw [ho] at h; simp at h
          | ok u1 =>
            rw [ho] at h
            simp only at h
            cases hst : cam.GetStreams with
            | error e => rw [hst] at h; simp at h
            | ok u2 =>
              rw [hst] at h
              simp only at h
              unfold configureAndAcquire at h
              obtain ⟨hgain, hexp⟩ := configureParameters_values cam env.uninit
                (((((⟨env.fs, []⟩ : World).emit .Startup).emit .GetCameras).emit
                  (.Open .VmbAccessModeFull)).emit .GetStreams)
              have hfs : (configureParameters cam env.uninit
                (((((⟨env.fs, []⟩ : World).emit .Startup).emit .GetCameras).emit
                  (.Open .VmbAccessModeFull)).emit .GetStreams)).2.fs = env.fs := rfl
              generalize configureParameters cam env.uninit
                (((((⟨env.fs, []⟩ : World).emit .Startup).emit .GetCameras).emit
                  (.Open .VmbAccessModeFull)).emit .GetStreams) = cp at h hgain hexp hfs
              obtain ⟨p, wp⟩ := cp
              simp only at h hgain hexp hfs
              rw [hgain, hexp] at h
              cases hf1 : create_folders env.library wp (testing_folder 0 150) with
              | error t => rw [hf1] at h; simp at h
              | ok wa =>
                rw [hf1] at h
                simp only at h
                cases hf2 : create_folders env.library wa (timestamps_folder 0 150) with
                | error t => rw [hf2] at h; simp at h
                | ok wb =>
                  obtain ⟨w1, e1, f1⟩ := create_folders_fs env.library wp [] _ wa hf1
                  obtain ⟨w2, e2, -⟩ := create_folders_fs env.library wa [] _ wb hf2
                  rw [hfs] at e1
                  rw [← f1] at e2
                  exact ⟨cam, rest, w1, w2, rfl, rfl, ho, hst, e1, e2⟩
  · rintro ⟨cam, rest, w1, w2, hs, hg, ho, hst, e1, e2⟩
    unfold reachesLoop main
    rw [hs, hg]
    simp only [ho, hst]
    unfold configureAndAcquire
    obtain ⟨hgain, hexp⟩ := configureParameters_values cam env.uninit
      (((((⟨env.fs, []⟩ : World).emit .Startup).emit .GetCameras).emit
        (.Open .VmbAccessModeFull)).emit .GetStreams)
    have hfs : (configureParameters cam env.uninit
      (((((⟨env.fs, []⟩ : World).emit .Startup).emit .GetCameras).emit
        (.Open .VmbAccessModeFull)).emit .GetStreams)).2.fs = env.fs := rfl
    generalize configureParameters cam env.uninit
      (((((⟨env.fs, []⟩ : World).emit .Startup).emit .GetCameras).emit
        (.Open .VmbAccessModeFull)).emit .GetStreams) = cp at hgain hexp hfs ⊢
    obtain ⟨p, wp⟩ := cp
    simp only at hgain hexp hfs ⊢
    rw [hgain, hexp]
    obtain ⟨wa, ha, fa⟩ := create_folders_fs env.library ⟨env.fs, []⟩ wp.trace _ w1 e1
    have hwp : (⟨env.fs, wp.trace⟩ : World) = wp := by
      cases wp
      simp only at hfs
      rw [hfs]
    simp only [hwp] at ha
    rw [ha]
    simp only
    obtain ⟨wb, hb, -⟩ := create_folders_fs env.library ⟨w1.fs, []⟩ wa.trace _ w2 e2
    have hwa : (⟨w1.fs, wa.trace⟩ : World) = wa := by
      cases wa
      simp only at fa
      rw [fa]
    simp only [hwa] at hb
    rw [hb]
    rfl

/-! ## Runs that capture frames -/

/-- A run that reaches the loop and captures frames reading `ts`, with Enter
polled after the last of them and not before, the counter staying within `int`:
exit status and record. -/
theorem main_captures (env : Env) (cam : Camera) (rest : List Camera)
    (m : Nat) (ts : List Nat) (fuel : Nat)
    (hcam : env.GetCameras = .ok (cam :: rest))
    (hloop : reachesLoop env)
    (hts : timestampsCaptured ((List.range m).map cam.AcquireSingleImage) = ts.map .ok)
    (hne : ts ≠ []) (hmax : ts.length ≤ 2147483647)
    (hkeys : ∀ i, i + 1 < ts.length → env.waitKey i ≠ 13)
    (hlast : env.waitKey (ts.length - 1) = 13)
    (hfuel : m ≤ fuel) :
    (main env fuel).status = .exited EXIT_SUCCESS ∧
    imagesWritten (main env fuel).world.trace
      = (List.range ts.length).map (fun i =>
          "../images/Gain_0_ExposureTime_150/X03_Y03_TopRight/LaserDia_9mm" ++ "/frame_"
            ++ toString i ++ ".png") ∧
    ledgerCells (main env fuel).world.trace
      = (0, 0, .str "Timestamps (ns)")
          :: (ts.enumFrom 1).map (fun p => (p.1, 0, Cell.num (u64ToDouble p.2))) ∧
    ledgerCloses (main env fuel).world.trace = 1 := by
  obtain ⟨p, w0, hg, he, hi, hl, hc, -, -, -, hmain⟩ := main_of_running env cam rest hcam hloop
  rw [hmain fuel]
  simp only [acquire, hg, he]
  obtain ⟨s1, hrun, h1, h2, h3, -, h5⟩ :=
    runLoop_captures cam env.waitKey env.overflow (testing_folder 0 150) m
      (initialLoopState env.uninit
        (w0.emitAll [.workbook_new (xlsx_path 0 150), .workbook_add_worksheet "Timestamps",
          .worksheet_write_string 0 0 "Timestamps (ns)"]))
      ts 0 (by simpa [initialLoopState, List.range_eq_range'] using hts) hne
      (by simpa [initialLoopState, ENTER_KEY_CODE] using hkeys)
      (by simpa [initialLoopState, ENTER_KEY_CODE] using hlast) rfl (by omega) fuel hfuel
  rw [hrun]
  have hdir : testing_folder 0 150
      = "../images/Gain_0_ExposureTime_150/X03_Y03_TopRight/LaserDia_9mm" := by decide
  have hov : s1.overflowed = false := h5
  simp only [initialLoopState, emitAll_trace, imagesWritten_append, ledgerCells_append,
    ledgerCloses_append, hi, hl, hc, hdir, Nat.zero_add, ← List.range_eq_range'] at h1 h2 h3
  simp only [hov, Bool.false_eq_true, if_false, if_true, emitAll_trace, imagesWritten_append,
    ledgerCells_append, ledgerCloses_append, h1, h2, h3]
  simp [imagesWritten, ledgerCells, ledgerCloses, imagePath?, cellWritten?, isWorkbookClose]

/-- Timestamps up to `2^53` reach the ledger unchanged. -/
theorem ledger_rows_exact (ts : List Nat) (k : Nat) (h : ∀ t ∈ ts, t ≤ 9007199254740992) :
    (ts.enumFrom k).map (fun p => (p.1, 0, Cell.num (u64ToDouble p.2)))
      = (ts.enumFrom k).map (fun p => ((p.1, 0, Cell.num p.2) : Nat × Nat × Cell)) := by
  apply List.map_congr_left
  intro p hp
  rw [u64ToDouble_exact p.2 (h p.2 (List.snd_mem_of_mem_enumFrom hp))]

/-! ## C1 -/

/-- C1 (as amended): in every run that reaches the loop and in which the first
`m` captures contain exactly `n` successes reading the timestamps `t_1..t_n`,
with `1 ≤ n ≤ 2^31 - 1`, no Enter at the first `n - 1` key polls and Enter at
the `n`-th, `main` returns the success code, the image files written are
`frame_0.png` to `frame_(n-1).png` in the image directory, the ledger holds the
header at row 0 and, at row `i`, column 0, the timestamp `t_i` converted to
`double`, which is `t_i` itself when `t_i ≤ 2^53`, and nothing else, and the
ledger is closed exactly once. -/
theorem captured_frames_and_ledger (env : Env) (cam : Camera) (rest : List Camera)
    (m : Nat) (ts : List Nat) (fuel : Nat)
    (hcam : env.GetCameras = .ok (cam :: rest))
    (hloop : reachesLoop env)
    (hts : timestampsCaptured ((List.range m).map cam.AcquireSingleImage) = ts.map .ok)
    (hn : 1 ≤ ts.length) (hmax : ts.length ≤ 2147483647)
    (hkeys : ∀ i, i + 1 < ts.length → env.waitKey i ≠ 13)
    (hlast : env.waitKey (ts.length - 1) = 13)
    (hfuel : m ≤ fuel) :
    (main env fuel).status = .exited EXIT_SUCCESS ∧
    imagesWritten (main env fuel).world.trace
      = (List.range ts.length).map (fun i =>
          "../images/Gain_0_ExposureTime_150/X03_Y03_TopRight/LaserDia_9mm" ++ "/frame_"
            ++ toString i ++ ".png") ∧
    ledgerCells (main env fuel).world.trace
      = (0, 0, .str "Timestamps (ns)")
          :: (ts.enumFrom 1).map (fun p => (p.1, 0, Cell.num (u64ToDouble p.2))) ∧
    ((∀ t ∈ ts, t ≤ 9007199254740992) →
      ledgerCells (main env fuel).world.trace
        = (0, 0, .str "Timestamps (ns)")
            :: (ts.enumFrom 1).map (fun p => (p.1, 0, Cell.num p.2))) ∧
    ledgerCloses (main env fuel).world.trace = 1 := by
  have hne : ts ≠ [] := by
    intro h
    rw [h] at hn
    simp at hn
  obtain ⟨h0, h1, h2, h3⟩ :=
    main_captures env cam rest m ts fuel hcam hloop hts hne hmax hkeys hlast hfuel
  refine ⟨h0, h1, h2, ?_, h3⟩
  intro hsmall
  rw [h2, ledger_rows_exact ts 1 hsmall]

/-- C1, the scenario of the specification: three frames with timestamps 100,
250 and 400 (two timed-out captures in between) and Enter after the third. -/
theorem captured_frames_and_ledger_witness :
    (main demoEnv 5).status = .exited EXIT_SUCCESS ∧
    imagesWritten (main demoEnv 5).world.trace
      = ["../images/Gain_0_ExposureTime_150/X03_Y03_TopRight/LaserDia_9mm/frame_0.png",
         "../images/Gain_0_ExposureTime_150/X03_Y03_TopRight/LaserDia_9mm/frame_1.png",
         "../images/Gain_0_ExposureTime_150/X03_Y03_TopRight/LaserDia_9mm/frame_2.png"] ∧
    ledgerCells (main demoEnv 5).world.trace
      = [(0, 0, .str "Timestamps (ns)"), (1, 0, .num 100), (2, 0, .num 250),
         (3, 0, .num 400)] ∧
    ledgerCloses (main demoEnv 5).world.trace = 1 :=
  have h := captured_frames_and_ledger demoEnv demoCam [] 5 [100, 250, 400] 5 rfl (by decide)
    rfl (by decide) (by decide)
    (by
      intro i hi
      have h2 : i < 2 := by simp at hi; omega
      interval_cases i <;> decide)
    (by decide) (le_refl 5)
  ⟨h.1, h.2.1, h.2.2.2.1 (by decide), h.2.2.2.2⟩

/-- C1 fails as stated for a timestamp that is not a `double`: with one frame
whose hardware timestamp is 9007199254740993 and Enter pressed after it, `main`
returns the success code and row 1 of the ledger holds 9007199254740992, not the
timestamp. -/
theorem late_timestamp_is_rounded :
    (main lateEnv 1).status = .exited EXIT_SUCCESS ∧
    ledgerCells (main lateEnv 1).world.trace
      = [(0, 0, .str "Timestamps (ns)"), (1, 0, .num 9007199254740992)] ∧
    ledgerCells (main lateEnv 1).world.trace
      ≠ [(0, 0, .str "Timestamps (ns)"), (1, 0, .num 9007199254740993)] := by
  have h := main_captures lateEnv lateCam [] 1 [9007199254740993] 1 rfl (by decide) rfl
    (by decide) (by decide) (by intro i hi; simp at hi) (by decide) (le_refl 1)
  have hrow : ledgerCells (main lateEnv 1).world.trace
      = [(0, 0, .str "Timestamps (ns)"), (1, 0, .num 9007199254740992)] := by
    rw [h.2.2.1]
    exact congrArg (fun v => [((0, 0, Cell.str "Timestamps (ns)") : Nat × Nat × Cell),
      (1, 0, Cell.num v)]) u64ToDouble_samples.1
  refine ⟨h.1, hrow, ?_⟩
  rw [hrow]
  decide

/-! ## C2 -/

/-- C2: an iteration whose capture call times out or returns an error leaves
the frame counter, the ledger cells and the image files written as they were;
it polls no key, does not leave the loop, and the loop goes on from a state
that differs only by the recorded capture request. -/
theorem failed_capture_changes_nothing (cam : Camera) (keys : Nat → Int) (ovf : Overflow) (folder : String)
    (s : LoopState) (e : VmbError) (h : cam.AcquireSingleImage s.captures = .error e) :
    (loopIteration cam keys ovf folder s).1.frame_count = s.frame_count ∧
    ledgerCells (loopIteration cam keys ovf folder s).1.world.trace = ledgerCells s.world.trace ∧
    imagesWritten (loopIteration cam keys ovf folder s).1.world.trace
      = imagesWritten s.world.trace ∧
    keysPolled (loopIteration cam keys ovf folder s).1.world.trace = keysPolled s.world.trace ∧
    (loopIteration cam keys ovf folder s).1.world.trace
      = s.world.trace ++ [.AcquireSingleImage 50] ∧
    (loopIteration cam keys ovf folder s).1.world.fs = s.world.fs ∧
    (loopIteration cam keys ovf folder s).2 = false := by
  rw [loopIteration_error cam keys ovf folder s e h]
  simp [ledgerCells, imagesWritten, keysPolled, cellWritten?, imagePath?, keyPolled?, t_out]

/-- C2 at a concrete state: the first capture of a camera that only times out. -/
theorem failed_capture_changes_nothing_witness :
    timeoutCam.AcquireSingleImage freshState.captures = .error .timeout ∧
    (loopIteration timeoutCam (fun _ => 13) wrappingBuild "out" freshState).1.frame_count = 0 ∧
    ledgerCells (loopIteration timeoutCam (fun _ => 13) wrappingBuild "out" freshState).1.world.trace = [] ∧
    imagesWritten (loopIteration timeoutCam (fun _ => 13) wrappingBuild "out" freshState).1.world.trace
      = [] :=
  have h := failed_capture_changes_nothing timeoutCam (fun _ => 13) wrappingBuild "out" freshState .timeout
    rfl
  ⟨rfl, h.1, h.2.1, h.2.2.1⟩

/-! ## C3 -/

/-- A run that reaches the loop with a device that fails every capture stays in
the loop and adds nothing but capture requests to the record. -/
theorem main_all_fail (env : Env) (cam : Camera) (rest : List Camera) (fuel : Nat)
    (hcam : env.GetCameras = .ok (cam :: rest))
    (hloop : reachesLoop env)
    (hfail : ∀ k, ∃ e, cam.AcquireSingleImage k = .error e) :
    (main env fuel).status = .running ∧
    imagesWritten (main env fuel).world.trace = [] ∧
    ledgerCells (main env fuel).world.trace = [(0, 0, .str "Timestamps (ns)")] ∧
    ledgerCloses (main env fuel).world.trace = 0 ∧
    keysPolled (main env fuel).world.trace = [] := by
  obtain ⟨p, w0, -, -, hi, hl, hc, hkp, -, -, hmain⟩ := main_of_running env cam rest hcam hloop
  rw [hmain fuel]
  simp only [acquire, runLoop_all_fail cam env.waitKey env.overflow _ hfail, emitAll_trace,
    imagesWritten_append, ledgerCells_append, ledgerCloses_append, keysPolled_append,
    initialLoopState, hi, hl, hc, hkp, Bool.false_eq_true, if_false]
  have himg : ∀ n : Nat, imagesWritten (List.replicate n (Event.AcquireSingleImage t_out)) = [] := by
    intro n
    simp [imagesWritten, List.filterMap_replicate, imagePath?]
  have hled : ∀ n : Nat, ledgerCells (List.replicate n (Event.AcquireSingleImage t_out)) = [] := by
    intro n
    simp [ledgerCells, List.filterMap_replicate, cellWritten?]
  have hkey : ∀ n : Nat, keysPolled (List.replicate n (Event.AcquireSingleImage t_out)) = [] := by
    intro n
    simp [keysPolled, List.filterMap_replicate, keyPolled?]
  have hcl : ∀ n : Nat, ledgerCloses (List.replicate n (Event.AcquireSingleImage t_out)) = 0 := by
    intro n
    simp [ledgerCloses, List.countP_replicate, isWorkbookClose]
  simp [himg, hled, hkey, hcl, imagesWritten, ledgerCells, keysPolled, ledgerCloses, imagePath?,
    cellWritten?, keyPolled?, isWorkbookClose]

/-- C3 (as amended): in a run that reaches the loop with a device that fails
every capture, whatever the keys pressed, the loop is never left: after any
number of iterations the run is still in the loop, no image file has been
written, the ledger holds the header row only and has not been closed, and no
key has been polled. -/
theorem all_timeouts_never_exit (env : Env) (cam : Camera) (rest : List Camera) (fuel : Nat)
    (hcam : env.GetCameras = .ok (cam :: rest))
    (hloop : reachesLoop env)
    (hfail : ∀ k, ∃ e, cam.AcquireSingleImage k = .error e) :
    (main env fuel).status = .running ∧
    imagesWritten (main env fuel).world.trace = [] ∧
    ledgerCells (main env fuel).world.trace = [(0, 0, .str "Timestamps (ns)")] ∧
    ledgerCloses (main env fuel).world.trace = 0 ∧
    keysPolled (main env fuel).world.trace = [] :=
  main_all_fail env cam rest fuel hcam hloop hfail

/-- C3 at a concrete input: the device that only times out, Enter held down,
after 1000 iterations. -/
theorem all_timeouts_never_exit_witness :
    (main timeoutEnv 1000).status = .running ∧
    imagesWritten (main timeoutEnv 1000).world.trace = [] ∧
    ledgerCells (main timeoutEnv 1000).world.trace = [(0, 0, .str "Timestamps (ns)")] ∧
    ledgerCloses (main timeoutEnv 1000).world.trace = 0 ∧
    keysPolled (main timeoutEnv 1000).world.trace = [] :=
  all_timeouts_never_exit timeoutEnv timeoutCam [] 1000 rfl (by decide)
    (fun _ => ⟨.timeout, rfl⟩)

/-- C3 fails as stated: with a device that times out on every capture and Enter
as the answer of every key poll, `main` does not terminate, however many
iterations it is given. -/
theorem all_timeouts_no_termination :
    ¬ ∃ (fuel : Nat) (code : Int), (main timeoutEnv fuel).status = .exited code := by
  rintro ⟨fuel, code, h⟩
  have h1 := (main_all_fail timeoutEnv timeoutCam [] fuel rfl (by decide)
    (fun _ => ⟨.timeout, rfl⟩)).1
  rw [h1] at h
  exact absurd h (by simp)

/-! ## C4 -/

/-- What one iteration adds to the record, as a function of the answer to its
capture request. -/
theorem loopIteration_events (cam : Camera) (keys : Nat → Int) (ovf : Overflow) (folder : String)
    (s : LoopState) :
    ∃ evs, (loopIteration cam keys ovf folder s).1.world.trace
        = s.world.trace ++ .AcquireSingleImage t_out :: evs ∧
      (∀ d k, Event.waitKey d k ∈ evs → d = 1) ∧
      ((∃ e, cam.AcquireSingleImage s.captures = .error e) → keysPolled evs = []) ∧
      ((∃ f, cam.AcquireSingleImage s.captures = .ok f) → keysPolled evs = [keys s.polls]) ∧
      (loopIteration cam keys ovf folder s).2 = decide (keysPolled evs = [ENTER_KEY_CODE]) := by
  cases hc : cam.AcquireSingleImage s.captures with
  | error e =>
    refine ⟨[], ?_, ?_, ?_, ?_, ?_⟩
    · rw [loopIteration_error cam keys ovf folder s e hc]; rfl
    · simp
    · intro _; rfl
    · rintro ⟨f, hf⟩; exact absurd hf (by simp)
    · rw [loopIteration_error cam keys ovf folder s e hc]; rfl
  | ok frame =>
    obtain ⟨e1, h1, c1⟩ := logFailure_trace frame.GetHeight "Failed to get frame height!"
      (s.world.emit (.AcquireSingleImage t_out))
    obtain ⟨e2, h2, c2⟩ := logFailure_trace frame.GetWidth "Failed to get frame width!"
      (logFailure frame.GetHeight "Failed to get frame height!"
        (s.world.emit (.AcquireSingleImage t_out)))
    obtain ⟨e3, h3, c3⟩ := logFailure_trace frame.GetImage "Failed to acquire image data. "
      (logFailure frame.GetWidth "Failed to get frame width!"
        (logFailure frame.GetHeight "Failed to get frame height!"
          (s.world.emit (.AcquireSingleImage t_out))))
    obtain ⟨e4, h4, c4⟩ := logFailure_trace frame.GetTimestamp "Failed to acquire timestamp. "
      (logFailure frame.GetImage "Failed to acquire image data. "
        (logFailure frame.GetWidth "Failed to get frame width!"
          (logFailure frame.GetHeight "Failed to get frame height!"
            (s.world.emit (.AcquireSingleImage t_out)))))
    rw [h3, h2, h1, emit_trace] at h4
    have c : ∀ e ∈ e1 ++ e2 ++ e3 ++ e4, ∃ t, e = Event.cout t := by
      intro e he
      simp only [List.mem_append] at he
      rcases he with ((h | h) | h) | h
      · exact c1 e h
      · exact c2 e h
      · exact c3 e h
      · exact c4 e h
    have hk : keysPolled (e1 ++ e2 ++ e3 ++ e4) = [] := by
      unfold keysPolled
      rw [List.filterMap_eq_nil_iff]
      intro e he
      obtain ⟨t, rfl⟩ := c e he
      rfl
    have hw : ∀ d k, Event.waitKey d k ∉ e1 ++ e2 ++ e3 ++ e4 := by
      intro d k hmem
      obtain ⟨t, ht⟩ := c _ hmem
      exact absurd ht (by simp)
    refine ⟨(e1 ++ e2 ++ e3 ++ e4) ++ [.imwrite (framePath folder s.frame_count)
        ⟨toInt32 ((stored frame.GetHeight s.frame_h : Nat) : Int),
          toInt32 ((stored frame.GetWidth s.frame_w : Nat) : Int),
          stored (frame.GetImage.map some) s.pImage⟩,
      .imshow windowTitle ⟨toInt32 ((stored frame.GetHeight s.frame_h : Nat) : Int),
          toInt32 ((stored frame.GetWidth s.frame_w : Nat) : Int),
          stored (frame.GetImage.map some) s.pImage⟩,
      .worksheet_write_number
        (if inIntRange (s.frame_count + 1) then toUInt32 (s.frame_count + 1)
          else ovf.row (s.frame_count + 1)) 0
        (u64ToDouble (stored frame.GetTimestamp s.time_stamp)),
      .waitKey 1 (keys s.polls)], ?_, ?_, ?_, ?_, ?_⟩
    · simp only [loopIteration, hc, emit_trace, h4]
      simp
    · intro d k hmem
      rcases List.mem_append.1 hmem with h | h
      · exact absurd h (hw d k)
      · simp at h
        exact h.1
    · rintro ⟨e, he⟩; exact absurd he (by simp)
    · intro _
      rw [keysPolled_append, hk]
      simp [keysPolled, keyPolled?]
    · rw [keysPolled_append, hk]
      simp [loopIteration, hc, keysPolled, keyPolled?]
      cases h : keys s.polls == ENTER_KEY_CODE <;> simp_all

/-- C4: an iteration leaves the loop exactly when its key poll, made with a wait
of 1 ms, returned code 13; an iteration without a poll or with any other answer
hands over to the next iteration, which starts with a capture request; and
whenever the loop has been left, the last call recorded is a key poll answered
by 13. -/
theorem loop_left_iff_enter_polled (cam : Camera) (keys : Nat → Int) (ovf : Overflow) (folder : String)
    (s : LoopState) (fuel : Nat) :
    ∃ evs next,
      (loopIteration cam keys ovf folder s).1.world.trace = s.world.trace ++ evs ∧
      (∀ d k, Event.waitKey d k ∈ evs → d = 1) ∧
      ((loopIteration cam keys ovf folder s).2 = true ↔ keysPolled evs = [13]) ∧
      ((loopIteration cam keys ovf folder s).2 = true →
        runLoop cam keys ovf folder (fuel + 1) s = ((loopIteration cam keys ovf folder s).1, true)) ∧
      ((loopIteration cam keys ovf folder s).2 = false →
        runLoop cam keys ovf folder (fuel + 1) s
          = runLoop cam keys ovf folder fuel (loopIteration cam keys ovf folder s).1 ∧
        (loopIteration cam keys ovf folder (loopIteration cam keys ovf folder s).1).1.world.trace
          = (loopIteration cam keys ovf folder s).1.world.trace
              ++ .AcquireSingleImage 50 :: next) ∧
      (∀ s1, runLoop cam keys ovf folder fuel s = (s1, true) →
        s1.world.trace.getLast? = some (.waitKey 1 13)) := by
  obtain ⟨evs, h1, h2, -, -, h5⟩ := loopIteration_events cam keys ovf folder s
  obtain ⟨next, n1, -⟩ :=
    loopIteration_events cam keys ovf folder (loopIteration cam keys ovf folder s).1
  refine ⟨.AcquireSingleImage t_out :: evs, next, h1, ?_, ?_, ?_, ?_,
    fun s1 h => runLoop_left_last cam keys ovf folder fuel s s1 h⟩
  · intro d k hmem
    rcases List.mem_cons.1 hmem with h | h
    · exact absurd h (by simp)
    · exact h2 d k h
  · rw [h5]
    simp [keysPolled, keyPolled?, ENTER_KEY_CODE]
  · exact runLoop_break cam keys ovf folder fuel s
  · intro hb
    exact ⟨runLoop_continue cam keys ovf folder fuel s hb, n1⟩

/-! ## C5 -/

/-- C5, the code at the failing input: when enumeration succeeds with an empty
camera vector, `main` neither shuts the session down nor returns the failure
code; after `Startup` and `GetCameras` it indexes `cameras[0]` of the empty
vector. -/
theorem empty_camera_vector_is_indexed (fuel : Nat) :
    (main noCameraEnv fuel).status = .undefined ∧
    (main noCameraEnv fuel).world.trace = [.Startup, .GetCameras] ∧
    Event.Shutdown ∉ (main noCameraEnv fuel).world.trace ∧
    (main noCameraEnv fuel).status ≠ .exited EXIT_FAILURE := by
  refine ⟨rfl, rfl, ?_, ?_⟩
  · show Event.Shutdown ∉ [Event.Startup, Event.GetCameras]
    simp
  · show Status.undefined ≠ Status.exited EXIT_FAILURE
    simp

/-! ## C6 -/

/-- C6: each of the four fatal setup failures makes `main` return the failure
code at once: the record then holds the calls up to the failing one and the
message, so no later setup step ran, no directory was created (the filesystem is
untouched) and the ledger was not opened; `Shutdown` is in the record for the
enumeration failure and for none of the other three.  `main` returns the success
code only with the clean-up calls right after a key poll answered by Enter. -/
theorem fatal_setup_failures (env : Env) (fuel : Nat) :
    (∀ e, env.Startup = .error e →
      (main env fuel).status = .exited EXIT_FAILURE ∧
      (main env fuel).world.trace = [.Startup, .cout "Could not start the API."] ∧
      (main env fuel).world.fs = env.fs) ∧
    (∀ e, env.Startup = .ok () → env.GetCameras = .error e →
      (main env fuel).status = .exited EXIT_FAILURE ∧
      (main env fuel).world.trace
        = [.Startup, .GetCameras, .cout "No cameras found.", .Shutdown] ∧
      (main env fuel).world.fs = env.fs) ∧
    (∀ cam rest e, env.Startup = .ok () → env.GetCameras = .ok (cam :: rest) →
      cam.Open = .error e →
      (main env fuel).status = .exited EXIT_FAILURE ∧
      (main env fuel).world.trace
        = [.Startup, .GetCameras, .Open .VmbAccessModeFull, .cout "Cannot access the cameras."] ∧
      (main env fuel).world.fs = env.fs) ∧
    (∀ cam rest e, env.Startup = .ok () → env.GetCameras = .ok (cam :: rest) →
      cam.Open = .ok () → cam.GetStreams = .error e →
      (main env fuel).status = .exited EXIT_FAILURE ∧
      (main env fuel).world.trace
        = [.Startup, .GetCameras, .Open .VmbAccessModeFull, .GetStreams, .cout "Not able to stream."] ∧
      (main env fuel).world.fs = env.fs) ∧
    ((main env fuel).status = .exited EXIT_SUCCESS →
      ∃ s, (main env fuel).loop = some s ∧
        s.world.trace.getLast? = some (.waitKey 1 13) ∧
        (main env fuel).world.trace
          = s.world.trace ++ [.destroyAllWindows, .Close, .Shutdown, .workbook_close]) := by
  refine ⟨?_, ?_, ?_, ?_, ?_⟩
  · intro e h
    simp [main, h, World.emit]
  · intro e h1 h2
    simp [main, h1, h2, World.emit]
  · intro cam rest e h1 h2 h3
    simp [main, h1, h2, h3, World.emit]
  · intro cam rest e h1 h2 h3 h4
    simp [main, h1, h2, h3, h4, World.emit]
  · intro h
    unfold main at h ⊢
    cases hs : env.Startup with
    | error e => rw [hs] at h; simp [EXIT_SUCCESS, EXIT_FAILURE] at h
    | ok u =>
      rw [hs] at h
      simp only at h ⊢
      cases hg : env.GetCameras with
      | error e => rw [hg] at h; simp [EXIT_SUCCESS, EXIT_FAILURE] at h
      | ok cameras =>
        rw [hg] at h
        simp only at h ⊢
        cases cameras with
        | nil => simp at h
        | cons cam rest =>
          simp only at h ⊢
          cases ho : cam.Open with
          | error e => rw [ho] at h; simp [EXIT_SUCCESS, EXIT_FAILURE] at h
          | ok u1 =>
            rw [ho] at h
            simp only at h ⊢
            cases hst : cam.GetStreams with
            | error e => rw [hst] at h; simp [EXIT_SUCCESS, EXIT_FAILURE] at h
            | ok u2 =>
              rw [hst] at h
              simp only at h ⊢
              unfold configureAndAcquire at h ⊢
              generalize configureParameters cam env.uninit
                (((((⟨env.fs, []⟩ : World).emit .Startup).emit .GetCameras).emit (.Open .VmbAccessModeFull)).emit
                  .GetStreams) = cp at h ⊢
              obtain ⟨p, w1⟩ := cp
              simp only at h ⊢
              cases hf1 : create_folders env.library w1 (testing_folder p.gain p.exposure_time) with
              | error t => rw [hf1] at h; simp at h
              | ok w2 =>
                rw [hf1] at h
                simp only at h ⊢
                cases hf2 : create_folders env.library w2 (timestamps_folder p.gain p.exposure_time) with
                | error t => rw [hf2] at h; simp at h
                | ok w3 =>
                  rw [hf2] at h
                  simp only at h ⊢
                  unfold acquire at h ⊢
                  simp only at h ⊢
                  rcases hr : runLoop cam env.waitKey env.overflow (testing_folder p.gain p.exposure_time)
                    fuel (initialLoopState env.uninit
                      (w3.emitAll [.workbook_new (xlsx_path p.gain p.exposure_time),
                        .workbook_add_worksheet "Timestamps",
                        .worksheet_write_string 0 0 "Timestamps (ns)"])) with ⟨s, b⟩
                  rw [hr] at h
                  simp only at h ⊢
                  cases hov : s.overflowed with
                  | true => rw [hov] at h; simp at h
                  | false =>
                    rw [hov] at h
                    simp only [Bool.false_eq_true, if_false] at h ⊢
                    cases b with
                    | false => simp at h
                    | true =>
                      simp only [if_true]
                      exact ⟨s, rfl,
                        runLoop_left_last cam env.waitKey env.overflow _ fuel _ s hr, rfl⟩

/-- C6 at concrete inputs: one environment for each of the four failures, and
the three-frame scenario for the success code. -/
theorem fatal_setup_failures_witness :
    (main startupFailsEnv 5).world.trace = [.Startup, .cout "Could not start the API."] ∧
    (main enumerationFailsEnv 5).world.trace
      = [.Startup, .GetCameras, .cout "No cameras found.", .Shutdown] ∧
    (main openFailsEnv 5).world.trace
      = [.Startup, .GetCameras, .Open .VmbAccessModeFull, .cout "Cannot access the cameras."] ∧
    (main streamsFailEnv 5).world.trace
      = [.Startup, .GetCameras, .Open .VmbAccessModeFull, .GetStreams, .cout "Not able to stream."] ∧
    (∃ s, (main demoEnv 5).loop = some s ∧
      s.world.trace.getLast? = some (.waitKey 1 13) ∧
      (main demoEnv 5).world.trace
        = s.world.trace ++ [.destroyAllWindows, .Close, .Shutdown, .workbook_close]) :=
  ⟨((fatal_setup_failures startupFailsEnv 5).1 _ rfl).2.1,
   ((fatal_setup_failures enumerationFailsEnv 5).2.1 _ rfl rfl).2.1,
   ((fatal_setup_failures openFailsEnv 5).2.2.1 _ _ _ rfl rfl rfl).2.1,
   ((fatal_setup_failures streamsFailEnv 5).2.2.2.1 _ _ _ rfl rfl rfl rfl).2.1,
   (fatal_setup_failures demoEnv 5).2.2.2.2 (by decide)⟩

/-! ## C7 -/

/-- The parameter block on every device: the values handed to `SetValue` and
the values printed as "after" values. -/
theorem configureParameters_set_and_reported (cam : Camera) (u : Uninitialised) (w : World) :
    valuesSet (configureParameters cam u w).2.trace
      = valuesSet w.trace
        ++ [("ExposureTimeAbs", 150), ("Gain", 0), ("AcquisitionFrameRateAbs", u.max_fps)] ∧
    (valuesReported (configureParameters cam u w).2.trace).filter
        (fun r => r.1 ∈ ["Exposure Time (After)", "Gain (After)", "Frame Rate (After)"])
      = (valuesReported w.trace).filter
          (fun r => r.1 ∈ ["Exposure Time (After)", "Gain (After)", "Frame Rate (After)"])
        ++ [("Exposure Time (After)", 150), ("Gain (After)", 0), ("Frame Rate (After)", 200)] := by
  constructor
  · simp [configureParameters, valuesSet, valueSet?]
  · simp [configureParameters, valuesReported, valueReported?, List.filter_cons]

/-- C7, the code at the failing input: with the uninitialised `max_fps` holding
18, exposure time and gain are reported with the values handed to `SetValue`
(150 and 0), but the frame rate is reported as 200 while `SetValue` received
18. -/
theorem frame_rate_after_value :
    valuesSet (configureParameters demoCam garbage ⟨startFs, []⟩).2.trace
      = [("ExposureTimeAbs", 150), ("Gain", 0), ("AcquisitionFrameRateAbs", 18)] ∧
    (valuesReported (configureParameters demoCam garbage ⟨startFs, []⟩).2.trace).filter
        (fun r => r.1 ∈ ["Exposure Time (After)", "Gain (After)", "Frame Rate (After)"])
      = [("Exposure Time (After)", 150), ("Gain (After)", 0), ("Frame Rate (After)", 200)] :=
  configureParameters_set_and_reported demoCam garbage ⟨startFs, []⟩

/-! ## C8 -/

/-- The conversion `int(x)` discards the fractional part: it is the floor of a
non-negative value and the ceiling of a non-positive one. -/
theorem cppInt_truncates (x : ℚ) :
    (0 ≤ x → cppInt x = ⌊x⌋) ∧ (x ≤ 0 → cppInt x = ⌈x⌉) := by
  constructor
  · intro hx
    rw [Rat.floor_def]
    exact Int.tdiv_eq_ediv (Rat.num_nonneg.2 hx) (Int.ofNat_nonneg _)
  · intro hx
    have hneg : 0 ≤ -x := neg_nonneg.2 hx
    have h1 : ⌈x⌉ = -⌊-x⌋ := by rw [Int.floor_neg, neg_neg]
    rw [h1, Rat.floor_def, Rat.neg_num, Rat.neg_den]
    have h2 : Int.tdiv (-x.num) x.den = (-x.num) / x.den :=
      Int.tdiv_eq_ediv (by rw [← Rat.neg_num]; exact Rat.num_nonneg.2 hneg)
        (Int.ofNat_nonneg _)
    rw [← h2, Int.neg_tdiv, neg_neg]
    rfl

/-- C8: both directories have the shape
`<root>/Gain_<int(gain)>_ExposureTime_<int(exposureTime)>/<movementLabel>/<experimentLabel>`
with roots `../images` and `../timestamps` and the same suffix, `int` discarding
the fractional part; gain 0.0 and exposure 150.0 give the segment
`Gain_0_ExposureTime_150`; whatever the device reported before the set calls,
the parameter block leaves values for which the two directories are the two
fixed paths, and in every run that reaches the loop these are the directories
`create_folders` is called on, and the ledger is opened at the timestamp
directory followed by `/timestamps.xlsx`. -/
theorem output_layout :
    (∀ gain exposure_time : ℚ,
      testing_folder gain exposure_time
        = "../images" ++ "/" ++ ("Gain_" ++ toString (cppInt gain) ++ "_ExposureTime_"
            ++ toString (cppInt exposure_time)) ++ "/" ++ "X03_Y03_TopRight" ++ "/"
            ++ "LaserDia_9mm" ∧
      timestamps_folder gain exposure_time
        = "../timestamps" ++ "/" ++ ("Gain_" ++ toString (cppInt gain) ++ "_ExposureTime_"
            ++ toString (cppInt exposure_time)) ++ "/" ++ "X03_Y03_TopRight" ++ "/"
            ++ "LaserDia_9mm" ∧
      xlsx_path gain exposure_time = timestamps_folder gain exposure_time ++ "/timestamps.xlsx") ∧
    (∀ x : ℚ, (0 ≤ x → cppInt x = ⌊x⌋) ∧ (x ≤ 0 → cppInt x = ⌈x⌉)) ∧
    param_folder_name 0 150 = "Gain_0_ExposureTime_150" ∧
    (∀ (cam : Camera) (u : Uninitialised) (w : World),
      testing_folder (configureParameters cam u w).1.gain
          (configureParameters cam u w).1.exposure_time
        = "../images/Gain_0_ExposureTime_150/X03_Y03_TopRight/LaserDia_9mm" ∧
      timestamps_folder (configureParameters cam u w).1.gain
          (configureParameters cam u w).1.exposure_time
        = "../timestamps/Gain_0_ExposureTime_150/X03_Y03_TopRight/LaserDia_9mm") ∧
    (∀ (env : Env) (fuel : Nat), reachesLoop env →
      pathsChecked (main env fuel).world.trace
        = ["../images/Gain_0_ExposureTime_150/X03_Y03_TopRight/LaserDia_9mm",
           "../timestamps/Gain_0_ExposureTime_150/X03_Y03_TopRight/LaserDia_9mm"] ∧
      workbooksOpened (main env fuel).world.trace
        = ["../timestamps/Gain_0_ExposureTime_150/X03_Y03_TopRight/LaserDia_9mm"
            ++ "/timestamps.xlsx"]) := by
  refine ⟨?_, cppInt_truncates, by decide, ?_, ?_⟩
  · intro gain exposure_time
    refine ⟨?_, ?_, ?_⟩
    · simp only [testing_folder, root_folder, param_folder_name, movement_folder_name,
        experiment_folder_name]
    · simp only [timestamps_folder, param_folder_name, movement_folder_name,
        experiment_folder_name, String.append_assoc]
      rfl
    · simp only [xlsx_path, String.append_assoc]
      rfl
  · intro cam u w
    obtain ⟨hg, he⟩ := configureParameters_values cam u w
    rw [hg, he]
    exact ⟨by decide, by decide⟩
  · intro env fuel hloop
    obtain ⟨h1, h2⟩ := main_layout env fuel hloop
    have d1 : testing_folder 0 150
        = "../images/Gain_0_ExposureTime_150/X03_Y03_TopRight/LaserDia_9mm" := by decide
    have d2 : timestamps_folder 0 150
        = "../timestamps/Gain_0_ExposureTime_150/X03_Y03_TopRight/LaserDia_9mm" := by decide
    have d3 : xlsx_path 0 150
        = "../timestamps/Gain_0_ExposureTime_150/X03_Y03_TopRight/LaserDia_9mm"
            ++ "/timestamps.xlsx" := by decide
    rw [h1, h2, d1, d2, d3]
    exact ⟨rfl, rfl⟩

/-- C8 at concrete inputs: the three-frame scenario, where the device reports 5
for every parameter, and the conversion of 150. -/
theorem output_layout_witness :
    cppInt 150 = ⌊(150 : ℚ)⌋ ∧
    pathsChecked (main demoEnv 5).world.trace
      = ["../images/Gain_0_ExposureTime_150/X03_Y03_TopRight/LaserDia_9mm",
         "../timestamps/Gain_0_ExposureTime_150/X03_Y03_TopRight/LaserDia_9mm"] ∧
    workbooksOpened (main demoEnv 5).world.trace
      = ["../timestamps/Gain_0_ExposureTime_150/X03_Y03_TopRight/LaserDia_9mm"
          ++ "/timestamps.xlsx"] :=
  ⟨(output_layout.2.1 150).1 (by norm_num), output_layout.2.2.2.2 demoEnv 5 (by decide)⟩

/-! ## C9 -/

/-- Iterations that read no timestamp leave the `time_stamp` local alone. -/
theorem runLoop_keeps_time_stamp (cam : Camera) (keys : Nat → Int) (ovf : Overflow)
    (folder : String) :
    ∀ (j : Nat) (s1 s : LoopState), runLoop cam keys ovf folder j s1 = (s, false) →
      (∀ i, i < j → ∀ f t1, cam.AcquireSingleImage (s1.captures + i) = .ok f →
        f.GetTimestamp ≠ .ok t1) →
      s.time_stamp = s1.time_stamp := by
  intro j
  induction j with
  | zero =>
    intro s1 s h _
    simp only [runLoop, Prod.mk.injEq, and_true] at h
    rw [h]
  | succ n ih =>
    intro s1 s h hno
    cases hb : (loopIteration cam keys ovf folder s1).2 with
    | true =>
      rw [runLoop_break cam keys ovf folder n s1 hb] at h
      simp at h
    | false =>
      rw [runLoop_continue cam keys ovf folder n s1 hb] at h
      have hstep : (loopIteration cam keys ovf folder s1).1.time_stamp = s1.time_stamp ∧
          (loopIteration cam keys ovf folder s1).1.captures = s1.captures + 1 := by
        cases hc : cam.AcquireSingleImage s1.captures with
        | error e =>
          rw [loopIteration_error cam keys ovf folder s1 e hc]
          exact ⟨rfl, rfl⟩
        | ok f =>
          obtain ⟨-, hts, hcap, -⟩ := loopIteration_ok cam keys ovf folder s1 f hc
          refine ⟨?_, hcap⟩
          rw [hts]
          cases hg : f.GetTimestamp with
          | error e => rfl
          | ok t1 => exact absurd hg (hno 0 (by omega) f t1 (by simpa using hc))
      rw [ih _ s h (by
        intro i hi f t1 hf
        rw [hstep.2, Nat.add_assoc, Nat.add_comm 1 i] at hf
        exact hno (i + 1) (by omega) f t1 hf), hstep.1]

/-- After iterations among which a timestamp was read, the `time_stamp` local
holds the timestamp of the last frame whose timestamp was read. -/
theorem runLoop_time_stamp_source (cam : Camera) (keys : Nat → Int) (ovf : Overflow)
    (folder : String) :
    ∀ (j : Nat) (s0 s : LoopState), runLoop cam keys ovf folder j s0 = (s, false) →
      (∃ i f t, i < j ∧ cam.AcquireSingleImage (s0.captures + i) = .ok f ∧
        f.GetTimestamp = .ok t) →
      ∃ i f t, i < j ∧ cam.AcquireSingleImage (s0.captures + i) = .ok f ∧
        f.GetTimestamp = .ok t ∧
        (∀ i1 f1 t1, i < i1 → i1 < j → cam.AcquireSingleImage (s0.captures + i1) = .ok f1 →
          f1.GetTimestamp ≠ .ok t1) ∧
        s.time_stamp = t := by
  intro j
  induction j with
  | zero =>
    rintro s0 s - ⟨i, f, t, hi, -⟩
    omega
  | succ n ih =>
    intro s0 s h hread
    cases hb : (loopIteration cam keys ovf folder s0).2 with
    | true =>
      rw [runLoop_break cam keys ovf folder n s0 hb] at h
      simp at h
    | false =>
      rw [runLoop_continue cam keys ovf folder n s0 hb] at h
      have hcap : (loopIteration cam keys ovf folder s0).1.captures = s0.captures + 1 := by
        cases hc : cam.AcquireSingleImage s0.captures with
        | error e => rw [loopIteration_error cam keys ovf folder s0 e hc]
        | ok f => exact (loopIteration_ok cam keys ovf folder s0 f hc).2.2.1
      by_cases hlater : ∃ i f t, i < n ∧
          cam.AcquireSingleImage ((loopIteration cam keys ovf folder s0).1.captures + i) = .ok f ∧
          f.GetTimestamp = .ok t
      · obtain ⟨i, f, t, hi, hf, ht, hlast, hst⟩ := ih _ s h hlater
        rw [hcap, Nat.add_assoc, Nat.add_comm 1 i] at hf
        refine ⟨i + 1, f, t, by omega, hf, ht, ?_, hst⟩
        intro i1 f1 t1 h1 h2 hf1
        obtain ⟨i2, rfl⟩ : ∃ i2, i1 = i2 + 1 := ⟨i1 - 1, by omega⟩
        refine hlast i2 f1 t1 (by omega) (by omega) ?_
        rw [hcap, Nat.add_assoc, Nat.add_comm 1 i2]
        exact hf1
      · have hnone : ∀ i, i < n → ∀ f t1,
            cam.AcquireSingleImage ((loopIteration cam keys ovf folder s0).1.captures + i)
              = .ok f → f.GetTimestamp ≠ .ok t1 := by
          intro i hi f t1 hf ht
          exact hlater ⟨i, f, t1, hi, hf, ht⟩
        obtain ⟨i, f, t, hi, hf, ht⟩ := hread
        have hi0 : i = 0 := by
          by_contra hne
          obtain ⟨i2, rfl⟩ : ∃ i2, i = i2 + 1 := ⟨i - 1, by omega⟩
          refine hnone i2 (by omega) f t ?_ ht
          rw [hcap, Nat.add_assoc, Nat.add_comm 1 i2]
          exact hf
        subst hi0
        rw [Nat.add_zero] at hf
        refine ⟨0, f, t, by omega, by simpa using hf, ht, ?_, ?_⟩
        · intro i1 f1 t1 h1 h2 hf1
          obtain ⟨i2, rfl⟩ : ∃ i2, i1 = i2 + 1 := ⟨i1 - 1, by omega⟩
          refine hnone i2 (by omega) f1 t1 ?_
          rw [hcap, Nat.add_assoc, Nat.add_comm 1 i2]
          exact hf1
        · rw [runLoop_keeps_time_stamp cam keys ovf folder n _ s h hnone,
            (loopIteration_ok cam keys ovf folder s0 f hf).2.1, ht]
          rfl

/-- C10 (as amended): an iteration whose capture succeeds and which starts with
`0 ≤ frameCount < 2^31 - 1` is carried through whichever of the four getters
fail: it writes `frame_<frameCount>.png`, appends one ledger row at index
`frameCount + 1`, increments `frameCount` by one and polls the key once; the row
holds, converted to `double`, the timestamp read from this frame, and when the
timestamp getter fails after an earlier frame's timestamp was read, it holds
that earlier frame's timestamp converted to `double`, the frame being the last
one whose timestamp was read. -/
theorem successful_capture_iteration (cam : Camera) (keys : Nat → Int) (ovf : Overflow)
    (folder : String) (s : LoopState) (frame : Frame)
    (hcap : cam.AcquireSingleImage s.captures = .ok frame)
    (h0 : 0 ≤ s.frame_count) (hmax : s.frame_count < 2147483647) :
    imagesWritten (loopIteration cam keys ovf folder s).1.world.trace
      = imagesWritten s.world.trace
        ++ [folder ++ "/frame_" ++ toString s.frame_count ++ ".png"] ∧
    (∃ stamp,
      ledgerCells (loopIteration cam keys ovf folder s).1.world.trace
        = ledgerCells s.world.trace
          ++ [((s.frame_count + 1).toNat, 0, .num (u64ToDouble stamp))] ∧
      (∀ t, frame.GetTimestamp = .ok t → stamp = t) ∧
      (∀ (s0 : LoopState) (j : Nat) (e : VmbError),
        runLoop cam keys ovf folder j s0 = (s, false) →
        (∃ i f t, i < j ∧ cam.AcquireSingleImage (s0.captures + i) = .ok f ∧
          f.GetTimestamp = .ok t) →
        frame.GetTimestamp = .error e →
        ∃ i f t, i < j ∧ cam.AcquireSingleImage (s0.captures + i) = .ok f ∧
          f.GetTimestamp = .ok t ∧
          (∀ i1 f1 t1, i < i1 → i1 < j →
            cam.AcquireSingleImage (s0.captures + i1) = .ok f1 → f1.GetTimestamp ≠ .ok t1) ∧
          stamp = t)) ∧
    (loopIteration cam keys ovf folder s).1.frame_count = s.frame_count + 1 ∧
    keysPolled (loopIteration cam keys ovf folder s).1.world.trace
      = keysPolled s.world.trace ++ [keys s.polls] := by
  obtain ⟨hfc, -, -, -, -, -, himg, hled, hkp, -, -⟩ :=
    loopIteration_ok cam keys ovf folder s frame hcap
  have hfit : inIntRange (s.frame_count + 1) = true := inIntRange_succ _ h0 hmax
  have hrow : toUInt32 (s.frame_count + 1) = (s.frame_count + 1).toNat := by
    unfold toUInt32
    congr 1
    omega
  rw [hfit] at hfc hled
  simp only [if_true] at hfc hled
  refine ⟨himg, ⟨stored frame.GetTimestamp s.time_stamp, ?_, ?_, ?_⟩, hfc, hkp⟩
  · rw [hled]
    exact congrArg (fun r => ledgerCells s.world.trace ++
      [(r, 0, Cell.num (u64ToDouble (stored frame.GetTimestamp s.time_stamp)))]) hrow
  · intro t ht
    rw [ht]
    rfl
  · intro s0 j e hrun hread he
    rw [he]
    exact runLoop_time_stamp_source cam keys ovf folder j s0 s hrun hread

/-- C10 at concrete inputs: the first frame reads timestamp 100, the next
capture times out, and every getter of the following frame fails; that
iteration still writes `frame_1.png`, and its row, at index 2, holds 100. -/
theorem successful_capture_iteration_witness :
    imagesWritten (loopIteration flakyCam (enterAt 5) wrappingBuild "out"
        (runLoop flakyCam (enterAt 5) wrappingBuild "out" 2 freshState).1).1.world.trace
      = ["out/frame_0.png", "out/frame_1.png"] ∧
    ledgerCells (loopIteration flakyCam (enterAt 5) wrappingBuild "out"
        (runLoop flakyCam (enterAt 5) wrappingBuild "out" 2 freshState).1).1.world.trace
      = [(1, 0, .num 100), (2, 0, .num 100)] ∧
    (loopIteration flakyCam (enterAt 5) wrappingBuild "out"
        (runLoop flakyCam (enterAt 5) wrappingBuild "out" 2 freshState).1).1.frame_count
      = 2 := by
  have h := successful_capture_iteration flakyCam (enterAt 5) wrappingBuild "out"
    (runLoop flakyCam (enterAt 5) wrappingBuild "out" 2 freshState).1 brokenFrame rfl
    (by decide) (by decide)
  obtain ⟨h1, ⟨stamp, h2, -, h3⟩, h4, -⟩ := h
  obtain ⟨i, f, t, hi, hf, ht, -, hst⟩ :=
    h3 freshState 2 (.other (-1)) rfl ⟨0, frameAt 100, 100, by decide, rfl, rfl⟩ rfl
  have hs : stamp = 100 := by
    have hi2 : i = 0 ∨ i = 1 := by omega
    rcases hi2 with rfl | rfl
    · have hf0 : (Except.ok (frameAt 100) : Except VmbError Frame) = .ok f := hf
      injection hf0 with hf0
      subst hf0
      have ht0 : (Except.ok 100 : Except VmbError Nat) = .ok t := ht
      injection ht0 with ht0
      rw [hst, ← ht0]
    · have hf1 : (Except.error VmbError.timeout : Except VmbError Frame) = .ok f := hf
      exact absurd hf1 (by simp)
  subst hs
  exact ⟨h1, h2, h4⟩

/-- C10 fails as stated for a timestamp that is not a `double`: the first frame
reads timestamp 9007199254740993, the timestamp getter of the second frame
fails, and the row appended for the second frame holds 9007199254740992, not the
earlier frame's timestamp. -/
theorem stale_timestamp_is_rounded :
    lateCam.AcquireSingleImage 0 = .ok (frameAt 9007199254740993) ∧
    lateCam.AcquireSingleImage 1 = .ok brokenFrame ∧
    ledgerCells (loopIteration lateCam (enterAt 5) wrappingBuild "out"
        (loopIteration lateCam (enterAt 5) wrappingBuild "out" freshState).1).1.world.trace
      = [(1, 0, .num 9007199254740992), (2, 0, .num 9007199254740992)] ∧
    (2, 0, .num 9007199254740993) ∉
      ledgerCells (loopIteration lateCam (enterAt 5) wrappingBuild "out"
        (loopIteration lateCam (enterAt 5) wrappingBuild "out" freshState).1).1.world.trace := by
  have hrow : ledgerCells (loopIteration lateCam (enterAt 5) wrappingBuild "out"
      (loopIteration lateCam (enterAt 5) wrappingBuild "out" freshState).1).1.world.trace
      = [(1, 0, .num 9007199254740992), (2, 0, .num 9007199254740992)] := by
    decide
  refine ⟨rfl, rfl, hrow, ?_⟩
  rw [hrow]
  decide

end ImageAcquisition
